import Mathlib

/-!
A shallow embedding of the webrender frame builder (`src/frame.rs`) and proofs
about it.  Source functions are translated into executable Lean definitions:
`f32` arithmetic is modelled over `ℚ` (with explicit rounding/truncation
functions mirroring `f32::round` and `as i32` casts), hash maps become
association lists, and panicking operations (`unwrap`, `expect`, indexing)
become `Option`-valued computations where `none` models a panic/abort.
Recursion that in Rust walks arbitrary id-linked graphs is given an explicit
fuel parameter; running out of fuel yields `none`.

Types that `frame.rs` imports from sibling modules that are not part of the
given sources (`layer.rs`, `internal_types.rs`, `scene.rs`, `batch.rs`,
`renderer.rs`, `geometry.rs`, `resource_cache.rs`, the `euclid` and
`webrender_traits` crates) are modelled from the specification; each such
definition carries a doc comment saying so.
-/

set_option maxHeartbeats 1600000

/-- 2D point with rational coordinates; models `euclid::Point2D<f32>`. -/
structure Point2 where
  x : ℚ
  y : ℚ
deriving DecidableEq, Repr

/-- 2D size with rational coordinates; models `euclid::Size2D<f32>`. -/
structure Size2 where
  width : ℚ
  height : ℚ
deriving DecidableEq, Repr

/-- Axis-aligned rectangle; models `euclid::Rect<f32>`. -/
structure Rect2 where
  origin : Point2
  size : Size2
deriving DecidableEq, Repr

/-- Homogeneous 4D point; models `euclid::Point4D<f32>`. -/
structure Point4 where
  x : ℚ
  y : ℚ
  z : ℚ
  w : ℚ
deriving DecidableEq, Repr

/-- 3D point; models `euclid::Point3D<f32>`. -/
structure Point3 where
  x : ℚ
  y : ℚ
  z : ℚ
deriving DecidableEq, Repr

def Point2.add (a b : Point2) : Point2 := ⟨a.x + b.x, a.y + b.y⟩

def Point2.neg (a : Point2) : Point2 := ⟨-a.x, -a.y⟩

def Point2.zero : Point2 := ⟨0, 0⟩

/-- `Rect::translate` from euclid: shift the origin, keep the size. -/
def Rect2.translate (r : Rect2) (p : Point2) : Rect2 :=
  ⟨⟨r.origin.x + p.x, r.origin.y + p.y⟩, r.size⟩

/-- `Rect::intersects` from euclid (strict inequalities: touching rectangles
do not intersect). -/
def Rect2.intersects (a b : Rect2) : Bool :=
  decide (a.origin.x < b.origin.x + b.size.width) &&
  decide (b.origin.x < a.origin.x + a.size.width) &&
  decide (a.origin.y < b.origin.y + b.size.height) &&
  decide (b.origin.y < a.origin.y + a.size.height)

/-- `Rect::intersection` from euclid: `none` when the rectangles do not
(strictly) overlap. -/
def Rect2.intersection (a b : Rect2) : Option Rect2 :=
  if a.intersects b then
    let ulx := max a.origin.x b.origin.x
    let uly := max a.origin.y b.origin.y
    let lrx := min (a.origin.x + a.size.width) (b.origin.x + b.size.width)
    let lry := min (a.origin.y + a.size.height) (b.origin.y + b.size.height)
    some ⟨⟨ulx, uly⟩, ⟨lrx - ulx, lry - uly⟩⟩
  else
    none

/-- Integer point; models `euclid::Point2D<i32>`. -/
structure PointI where
  x : ℤ
  y : ℤ
deriving DecidableEq, Repr

/-- Integer size; models `euclid::Size2D<i32>`. -/
structure SizeI where
  width : ℤ
  height : ℤ
deriving DecidableEq, Repr

/-- Integer rectangle; models `euclid::Rect<i32>`. -/
structure RectI where
  origin : PointI
  size : SizeI
deriving DecidableEq, Repr

/-- Truncation toward zero, modelling Rust's `as i32` cast from `f32`. -/
def qTrunc (q : ℚ) : ℤ := if 0 ≤ q then ⌊q⌋ else ⌈q⌉

/-- `f32::round`: round to the nearest integer, halves away from zero. -/
def f32Round (q : ℚ) : ℚ := ((if 0 ≤ q then ⌊q + 1/2⌋ else ⌈q - 1/2⌉ : ℤ) : ℚ)

/-- Row-major 4×4 matrix over ℚ; models `euclid::Matrix4` (`f32` entries).
Row-vector convention: points transform as `p ↦ p · M`, translations live in
the fourth row, and `A.mul B` is the ordinary matrix product `A · B`
(apply `A`, then `B`). -/
structure Matrix4 where
  m11 : ℚ
  m12 : ℚ
  m13 : ℚ
  m14 : ℚ
  m21 : ℚ
  m22 : ℚ
  m23 : ℚ
  m24 : ℚ
  m31 : ℚ
  m32 : ℚ
  m33 : ℚ
  m34 : ℚ
  m41 : ℚ
  m42 : ℚ
  m43 : ℚ
  m44 : ℚ
deriving DecidableEq, Repr

def Matrix4.identity : Matrix4 :=
  ⟨1, 0, 0, 0,
   0, 1, 0, 0,
   0, 0, 1, 0,
   0, 0, 0, 1⟩

def Matrix4.mul (a b : Matrix4) : Matrix4 :=
  ⟨a.m11 * b.m11 + a.m12 * b.m21 + a.m13 * b.m31 + a.m14 * b.m41,
   a.m11 * b.m12 + a.m12 * b.m22 + a.m13 * b.m32 + a.m14 * b.m42,
   a.m11 * b.m13 + a.m12 * b.m23 + a.m13 * b.m33 + a.m14 * b.m43,
   a.m11 * b.m14 + a.m12 * b.m24 + a.m13 * b.m34 + a.m14 * b.m44,
   a.m21 * b.m11 + a.m22 * b.m21 + a.m23 * b.m31 + a.m24 * b.m41,
   a.m21 * b.m12 + a.m22 * b.m22 + a.m23 * b.m32 + a.m24 * b.m42,
   a.m21 * b.m13 + a.m22 * b.m23 + a.m23 * b.m33 + a.m24 * b.m43,
   a.m21 * b.m14 + a.m22 * b.m24 + a.m23 * b.m34 + a.m24 * b.m44,
   a.m31 * b.m11 + a.m32 * b.m21 + a.m33 * b.m31 + a.m34 * b.m41,
   a.m31 * b.m12 + a.m32 * b.m22 + a.m33 * b.m32 + a.m34 * b.m42,
   a.m31 * b.m13 + a.m32 * b.m23 + a.m33 * b.m33 + a.m34 * b.m43,
   a.m31 * b.m14 + a.m32 * b.m24 + a.m33 * b.m34 + a.m34 * b.m44,
   a.m41 * b.m11 + a.m42 * b.m21 + a.m43 * b.m31 + a.m44 * b.m41,
   a.m41 * b.m12 + a.m42 * b.m22 + a.m43 * b.m32 + a.m44 * b.m42,
   a.m41 * b.m13 + a.m42 * b.m23 + a.m43 * b.m33 + a.m44 * b.m43,
   a.m41 * b.m14 + a.m42 * b.m24 + a.m43 * b.m34 + a.m44 * b.m44⟩

def Matrix4.createTranslation (x y z : ℚ) : Matrix4 :=
  ⟨1, 0, 0, 0,
   0, 1, 0, 0,
   0, 0, 1, 0,
   x, y, z, 1⟩

/-- `Matrix4::translate(x, y, z)` = post-multiplication with a translation. -/
def Matrix4.translate (m : Matrix4) (x y z : ℚ) : Matrix4 :=
  m.mul (Matrix4.createTranslation x y z)

/-- `Matrix4::transform_point4d` with the row-vector convention. -/
def Matrix4.transformPoint4d (m : Matrix4) (p : Point4) : Point4 :=
  ⟨p.x * m.m11 + p.y * m.m21 + p.z * m.m31 + p.w * m.m41,
   p.x * m.m12 + p.y * m.m22 + p.z * m.m32 + p.w * m.m42,
   p.x * m.m13 + p.y * m.m23 + p.z * m.m33 + p.w * m.m43,
   p.x * m.m14 + p.y * m.m24 + p.z * m.m34 + p.w * m.m44⟩

/-- Determinant of a 3×3 matrix given entrywise. -/
def det3 (a b c d e f g h i : ℚ) : ℚ :=
  a * (e * i - f * h) - b * (d * i - f * g) + c * (d * h - e * g)

def Matrix4.det (m : Matrix4) : ℚ :=
  m.m11 * det3 m.m22 m.m23 m.m24 m.m32 m.m33 m.m34 m.m42 m.m43 m.m44
  - m.m12 * det3 m.m21 m.m23 m.m24 m.m31 m.m33 m.m34 m.m41 m.m43 m.m44
  + m.m13 * det3 m.m21 m.m22 m.m24 m.m31 m.m32 m.m34 m.m41 m.m42 m.m44
  - m.m14 * det3 m.m21 m.m22 m.m23 m.m31 m.m32 m.m33 m.m41 m.m42 m.m43

/-- `Matrix4::invert` via the adjugate; on a singular matrix ℚ-division by the
zero determinant yields the zero matrix (the Rust code would produce
non-finite floats there; no claim depends on that case). -/
def Matrix4.invert (m : Matrix4) : Matrix4 :=
  let d := m.det
  let c11 := det3 m.m22 m.m23 m.m24 m.m32 m.m33 m.m34 m.m42 m.m43 m.m44
  let c12 := -det3 m.m21 m.m23 m.m24 m.m31 m.m33 m.m34 m.m41 m.m43 m.m44
  let c13 := det3 m.m21 m.m22 m.m24 m.m31 m.m32 m.m34 m.m41 m.m42 m.m44
  let c14 := -det3 m.m21 m.m22 m.m23 m.m31 m.m32 m.m33 m.m41 m.m42 m.m43
  let c21 := -det3 m.m12 m.m13 m.m14 m.m32 m.m33 m.m34 m.m42 m.m43 m.m44
  let c22 := det3 m.m11 m.m13 m.m14 m.m31 m.m33 m.m34 m.m41 m.m43 m.m44
  let c23 := -det3 m.m11 m.m12 m.m14 m.m31 m.m32 m.m34 m.m41 m.m42 m.m44
  let c24 := det3 m.m11 m.m12 m.m13 m.m31 m.m32 m.m33 m.m41 m.m42 m.m43
  let c31 := det3 m.m12 m.m13 m.m14 m.m22 m.m23 m.m24 m.m42 m.m43 m.m44
  let c32 := -det3 m.m11 m.m13 m.m14 m.m21 m.m23 m.m24 m.m41 m.m43 m.m44
  let c33 := det3 m.m11 m.m12 m.m14 m.m21 m.m22 m.m24 m.m41 m.m42 m.m44
  let c34 := -det3 m.m11 m.m12 m.m13 m.m21 m.m22 m.m23 m.m41 m.m42 m.m43
  let c41 := -det3 m.m12 m.m13 m.m14 m.m22 m.m23 m.m24 m.m32 m.m33 m.m34
  let c42 := det3 m.m11 m.m13 m.m14 m.m21 m.m23 m.m24 m.m31 m.m33 m.m34
  let c43 := -det3 m.m11 m.m12 m.m14 m.m21 m.m22 m.m24 m.m31 m.m32 m.m34
  let c44 := det3 m.m11 m.m12 m.m13 m.m21 m.m22 m.m23 m.m31 m.m32 m.m33
  ⟨c11 / d, c21 / d, c31 / d, c41 / d,
   c12 / d, c22 / d, c32 / d, c42 / d,
   c13 / d, c23 / d, c33 / d, c43 / d,
   c14 / d, c24 / d, c34 / d, c44 / d⟩

/-- Association-list lookup, modelling `HashMap::get`. -/
def lookupA {κ α : Type} [DecidableEq κ] : List (κ × α) → κ → Option α
  | [], _ => none
  | (k, v) :: rest, key => if k = key then some v else lookupA rest key

/-- Association-list insert-or-replace, modelling `HashMap::insert`. -/
def insertA {κ α : Type} [DecidableEq κ] (l : List (κ × α)) (key : κ) (v : α) :
    List (κ × α) :=
  (key, v) :: l.filter (fun p => !decide (p.1 = key))

theorem lookupA_insertA_self {κ α : Type} [DecidableEq κ]
    (l : List (κ × α)) (k : κ) (v : α) : lookupA (insertA l k v) k = some v := by
  simp [insertA, lookupA]

theorem lookupA_filter_ne {κ α : Type} [DecidableEq κ]
    (l : List (κ × α)) (k k' : κ) (h : ¬ k' = k) :
    lookupA (l.filter (fun p => !decide (p.1 = k))) k' = lookupA l k' := by
  have hkk : ¬ k = k' := fun hc => h hc.symm
  induction l with
  | nil => simp [lookupA]
  | cons p rest ih =>
    by_cases hp : p.1 = k
    · have hne : ¬ p.1 = k' := by
        intro hc
        exact h (hc ▸ hp)
      simp [List.filter, hp, lookupA, hne, ih, hkk]
    · by_cases hk' : p.1 = k'
      · simp [List.filter, hp, lookupA, hk', h]
      · simp [List.filter, hp, lookupA, hk', ih]

theorem lookupA_insertA_ne {κ α : Type} [DecidableEq κ]
    (l : List (κ × α)) (k k' : κ) (v : α) (h : ¬ k' = k) :
    lookupA (insertA l k v) k' = lookupA l k' := by
  have hk : ¬ k = k' := fun hc => h hc.symm
  simp only [insertA, lookupA, if_neg hk]
  exact lookupA_filter_ne l k k' h

theorem mem_insertA {κ α : Type} [DecidableEq κ]
    {l : List (κ × α)} {k : κ} {v : α} {p : κ × α}
    (h : p ∈ insertA l k v) : p = (k, v) ∨ p ∈ l := by
  simp only [insertA, List.mem_cons] at h
  rcases h with h | h
  · exact Or.inl h
  · exact Or.inr (List.mem_of_mem_filter h)

/-- Modelled from the spec: `webrender_traits::ScrollLayerId`
(`Fixed | Normal(id)`); `scene.rs`/`webrender_traits` are not in the given
sources. -/
inductive ScrollLayerId where
  | fixedLayer : ScrollLayerId
  | normal (id : Nat) : ScrollLayerId
deriving DecidableEq, Repr

/-- Modelled from the spec: `webrender_traits::ScrollPolicy`. -/
inductive ScrollPolicy where
  | scrollable : ScrollPolicy
  | fixedPolicy : ScrollPolicy
deriving DecidableEq, Repr

/-- Modelled from the spec: `webrender_traits::StackingLevel` (the six CSS
paint-order levels). -/
inductive StackingLevel where
  | backgroundAndBorders
  | blockBackgroundAndBorders
  | positionedContent
  | floats
  | content
  | outlines
deriving DecidableEq, Repr

/-- Modelled from the spec: iframe scene item payload (`id`, `bounds`). -/
structure IframeInfo where
  id : Nat
  bounds : Rect2
deriving DecidableEq, Repr

/-- Modelled from the spec: `scene::SpecificSceneItem`. -/
inductive SpecificSceneItem where
  | drawList (id : Nat)
  | stackingContext (id : Nat)
  | iframe (info : IframeInfo)
deriving DecidableEq, Repr

/-- Modelled from the spec: `scene::SceneItem`. -/
structure SceneItem where
  stacking_level : StackingLevel
  specific : SpecificSceneItem
deriving DecidableEq, Repr

/-- Modelled from the spec: `webrender_traits::MixBlendMode`. -/
inductive MixBlendMode where
  | normal | multiply | screen | overlay | darken | lighten
  | colorDodge | colorBurn | hardLight | softLight | difference
  | exclusion | hue | saturation | color | luminosity
deriving DecidableEq, Repr

/-- Modelled from the spec: `internal_types::AxisDirection`. -/
inductive AxisDirection where
  | horizontal
  | vertical
deriving DecidableEq, Repr

/-- Modelled from the spec: `webrender_traits::FilterOp`.  `Blur` carries an
`Au` radius (modelled as ℤ); the other filters carry `f32` amounts
(modelled as ℚ). -/
inductive FilterOp where
  | blur (radius : ℤ)
  | brightness (amount : ℚ)
  | contrast (amount : ℚ)
  | grayscale (amount : ℚ)
  | hueRotate (angle : ℚ)
  | invertFilter (amount : ℚ)
  | opacity (amount : ℚ)
  | saturate (amount : ℚ)
  | sepia (amount : ℚ)
deriving DecidableEq, Repr

/-- Modelled from the spec: `internal_types::LowLevelFilterOp`; fixed-point
amounts are `Au`/ℤ values. -/
inductive LowLevelFilterOp where
  | blur (radius : ℤ) (direction : AxisDirection)
  | brightness (amount : ℤ)
  | contrast (amount : ℤ)
  | grayscale (amount : ℤ)
  | hueRotate (angle : ℤ)
  | invertFilter (amount : ℤ)
  | opacity (amount : ℤ)
  | saturate (amount : ℤ)
  | sepia (amount : ℤ)
deriving DecidableEq, Repr

/-- Modelled from the spec: `internal_types::CompositionOp`. -/
inductive CompositionOp where
  | mixBlend (mode : MixBlendMode)
  | filterOp (op : LowLevelFilterOp)
deriving DecidableEq, Repr

/-- Modelled from the spec: `app_units::Au::from_f32_px` — app units are
1/60 px; the `as i32` cast truncates toward zero. -/
def auFromPx (px : ℚ) : ℤ := qTrunc (px * 60)

/-- Modelled from the spec: `internal_types::ANGLE_FLOAT_TO_FIXED`, the
scale from float angles to fixed point for `HueRotate`. -/
def ANGLE_FLOAT_TO_FIXED : ℚ := 65536

/-- Modelled from the spec: `CompositionOpHelpers::needs_framebuffer`
(renderer.rs is not in the given sources): blend modes need a framebuffer
read, filters do not. -/
def CompositionOp.needsFramebuffer : CompositionOp → Bool
  | .mixBlend _ => true
  | .filterOp _ => false

/-- Modelled from the spec: `CompositionOp::target_rect` may inflate the
target rect for a blur radius (exact inflation lives in code outside the
given sources; no claim depends on the concrete value). -/
def CompositionOp.targetRect : CompositionOp → RectI → RectI
  | .mixBlend _, r => r
  | .filterOp (.blur radius .horizontal), r =>
      ⟨⟨r.origin.x - radius, r.origin.y⟩, ⟨r.size.width + 2 * radius, r.size.height⟩⟩
  | .filterOp (.blur radius .vertical), r =>
      ⟨⟨r.origin.x, r.origin.y - radius⟩, ⟨r.size.width, r.size.height + 2 * radius⟩⟩
  | .filterOp _, r => r

/-- Modelled from the spec: the scene-side `StackingContext` record
(`webrender_traits`); fields are exactly the ones `frame.rs` reads. -/
structure StackingContext where
  bounds : Rect2
  overflow : Rect2
  transform : Matrix4
  perspective : Matrix4
  mix_blend_mode : MixBlendMode
  filters : List FilterOp
  scroll_policy : ScrollPolicy
  scroll_layer_id : Option ScrollLayerId
  establishes_3d_context : Bool
  has_stacking_contexts : Bool
  z_index : ℤ
  display_lists : List Nat
deriving DecidableEq, Repr

/-- `StackingContextHelpers::needs_composition_operation_for_mix_blend_mode`
from `frame.rs`. -/
def StackingContext.needs_composition_operation_for_mix_blend_mode
    (sc : StackingContext) : Bool :=
  match sc.mix_blend_mode with
  | .normal => false
  | .multiply | .screen | .overlay | .darken | .lighten
  | .colorDodge | .colorBurn | .hardLight | .softLight | .difference
  | .exclusion | .hue | .saturation | .color | .luminosity => true

/-- The per-filter expansion used by `composition_operations` (the body of the
`for filter in self.filters` loop in `frame.rs`). -/
def filterToOps : FilterOp → List CompositionOp
  | .blur radius =>
      [.filterOp (.blur radius .horizontal), .filterOp (.blur radius .vertical)]
  | .brightness amount => [.filterOp (.brightness (auFromPx amount))]
  | .contrast amount => [.filterOp (.contrast (auFromPx amount))]
  | .grayscale amount => [.filterOp (.grayscale (auFromPx amount))]
  | .hueRotate angle =>
      [.filterOp (.hueRotate (qTrunc (f32Round (angle * ANGLE_FLOAT_TO_FIXED))))]
  | .invertFilter amount => [.filterOp (.invertFilter (auFromPx amount))]
  | .opacity amount => [.filterOp (.opacity (auFromPx amount))]
  | .saturate amount => [.filterOp (.saturate (auFromPx amount))]
  | .sepia amount => [.filterOp (.sepia (auFromPx amount))]

/-- `StackingContextHelpers::composition_operations` from `frame.rs`: start
with the optional `MixBlend` entry, then fold over the filters pushing the
lowered operations. -/
def StackingContext.composition_operations (sc : StackingContext) :
    List CompositionOp :=
  let init :=
    if sc.needs_composition_operation_for_mix_blend_mode then
      [CompositionOp.mixBlend sc.mix_blend_mode]
    else
      []
  sc.filters.foldl (fun acc f => acc ++ filterToOps f) init

/-- `internal_types::ClearInfo`, modelled from the spec. -/
structure ClearInfo where
  clear_color : Bool
  clear_z : Bool
  clear_stencil : Bool
deriving DecidableEq, Repr

/-- `internal_types::CompositeBatchJob`, modelled from the spec. -/
structure CompositeBatchJob where
  rect : RectI
  render_target_index : Nat
deriving DecidableEq, Repr

/-- `internal_types::CompositeBatchInfo`, modelled from the spec. -/
structure CompositeBatchInfo where
  operation : CompositionOp
  jobs : List CompositeBatchJob
deriving DecidableEq, Repr

/-- `FrameRenderItem` from `frame.rs`. -/
inductive FrameRenderItem where
  | clear (info : ClearInfo)
  | compositeBatch (info : CompositeBatchInfo)
  | drawListBatch (draw_list_group_id : Nat)
deriving DecidableEq, Repr

/-- `RenderTarget` from `frame.rs` (`children` makes it a nested inductive,
so accessors are standalone definitions). -/
inductive RenderTarget where
  | mk (id : Nat) (children : List RenderTarget) (items : List FrameRenderItem)
      (child_texture_id : Option Nat) (size : Size2)
deriving Repr

def RenderTarget.id : RenderTarget → Nat
  | .mk i _ _ _ _ => i

def RenderTarget.children : RenderTarget → List RenderTarget
  | .mk _ c _ _ _ => c

def RenderTarget.items : RenderTarget → List FrameRenderItem
  | .mk _ _ it _ _ => it

def RenderTarget.child_texture_id : RenderTarget → Option Nat
  | .mk _ _ _ t _ => t

def RenderTarget.size : RenderTarget → Size2
  | .mk _ _ _ _ s => s

/-- `RenderTarget::new` from `frame.rs`. -/
def RenderTarget.new (id : Nat) (size : Size2) : RenderTarget :=
  .mk id [] [] none size

def RenderTarget.withItems : RenderTarget → List FrameRenderItem → RenderTarget
  | .mk i c _ t s, it => .mk i c it t s

def RenderTarget.pushChild : RenderTarget → RenderTarget → RenderTarget
  | .mk i c it t s, child => .mk i (c ++ [child]) it t s

/-- `RenderTarget::push_clear` from `frame.rs`. -/
def RenderTarget.push_clear (rt : RenderTarget) (info : ClearInfo) : RenderTarget :=
  rt.withItems (rt.items ++ [.clear info])

/-- `RenderTarget::push_draw_list_group` from `frame.rs`. -/
def RenderTarget.push_draw_list_group (rt : RenderTarget) (gid : Nat) : RenderTarget :=
  rt.withItems (rt.items ++ [.drawListBatch gid])

/-- `RenderTarget::push_composite` from `frame.rs`: an op that needs a
framebuffer read, or a last item that is not a composite batch with the same
operation, forces a fresh batch; the job is then appended to the last batch. -/
def RenderTarget.push_composite (rt : RenderTarget) (op : CompositionOp)
    (target : RectI) (render_target_index : Nat) : RenderTarget :=
  let need_new_batch :=
    op.needsFramebuffer ||
      (match rt.items.getLast? with
       | some (.compositeBatch info) => !decide (info.operation = op)
       | some (.clear _) => true
       | some (.drawListBatch _) => true
       | none => true)
  let items1 := if need_new_batch then rt.items ++ [.compositeBatch ⟨op, []⟩] else rt.items
  match items1.getLast? with
  | some (.compositeBatch batch) =>
      rt.withItems (items1.dropLast ++
        [.compositeBatch ⟨batch.operation,
          batch.jobs ++ [⟨target, render_target_index⟩]⟩])
  | _ => rt.withItems items1

/-- Modelled from the spec: `batch::MAX_MATRICES_PER_BATCH` (the GPU uniform
array limit; `batch.rs` is not in the given sources — the spec says the
implementation picks a constant, typically 32–64). -/
def MAX_MATRICES_PER_BATCH : Nat := 32

/-- `DrawListGroup` from `frame.rs`. -/
structure DrawListGroup where
  id : Nat
  scroll_layer_id : ScrollLayerId
  render_target_id : Nat
  draw_list_ids : List Nat
deriving DecidableEq, Repr

/-- `DrawListGroup::new` from `frame.rs`. -/
def DrawListGroup.new (id : Nat) (scroll_layer_id : ScrollLayerId)
    (render_target_id : Nat) : DrawListGroup :=
  ⟨id, scroll_layer_id, render_target_id, []⟩

/-- `DrawListGroup::can_add` from `frame.rs`. -/
def DrawListGroup.can_add (g : DrawListGroup) (scroll_layer_id : ScrollLayerId)
    (render_target_id : Nat) : Bool :=
  let scroll_ok := decide (scroll_layer_id = g.scroll_layer_id)
  let target_ok := decide (render_target_id = g.render_target_id)
  let size_ok := decide (g.draw_list_ids.length < MAX_MATRICES_PER_BATCH)
  scroll_ok && target_ok && size_ok

/-- `DrawListGroup::push` from `frame.rs`. -/
def DrawListGroup.push (g : DrawListGroup) (draw_list_id : Nat) : DrawListGroup :=
  { g with draw_list_ids := g.draw_list_ids ++ [draw_list_id] }

/-- Modelled from the spec: `scene::SceneStackingContext` (only the
`stacking_context` field is read by `frame.rs`). -/
structure SceneStackingContext where
  stacking_context : StackingContext
deriving DecidableEq, Repr

/-- Modelled from the spec: `scene::ScenePipeline`. -/
structure ScenePipeline where
  pipeline_id : Nat
  epoch : Nat
  background_draw_list : Option Nat
  root_stacking_context_id : Nat
deriving DecidableEq, Repr

/-- Modelled from the spec: a display list as stored in the scene. -/
structure DisplayList where
  items : List SceneItem
deriving DecidableEq, Repr

/-- Modelled from the spec: `scene::Scene` (maps as association lists). -/
structure Scene where
  root_pipeline_id : Option Nat
  pipeline_map : List (Nat × ScenePipeline)
  stacking_context_map : List (Nat × SceneStackingContext)
  display_list_map : List (Nat × DisplayList)
deriving DecidableEq, Repr

/-- `SceneItemKind` from `frame.rs` (holds the looked-up values rather than
borrows). -/
inductive SceneItemKind where
  | stackingContext (ssc : SceneStackingContext)
  | pipeline (p : ScenePipeline)
deriving DecidableEq, Repr

/-- The z-index the paint-order collector assigns to a `PositionedContent`
item: a child stacking context's own `z_index` (`none` models the source's
panicking `unwrap` on a missing id), 0 for `DrawList` and `Iframe`. -/
def zIndexOf (scene : Scene) (item : SceneItem) : Option ℤ :=
  match item.specific with
  | .stackingContext id =>
      (lookupA scene.stacking_context_map id).map
        (fun ssc => ssc.stacking_context.z_index)
  | .drawList _ => some 0
  | .iframe _ => some 0

/-- The six per-level accumulators of `collect_scene_items`;
`positioned_content` keeps each item with its computed z-index. -/
structure Buckets where
  background_and_borders : List SceneItem
  positioned_content : List (SceneItem × ℤ)
  block_background_and_borders : List SceneItem
  floats : List SceneItem
  content : List SceneItem
  outlines : List SceneItem
deriving DecidableEq, Repr

def Buckets.empty : Buckets := ⟨[], [], [], [], [], []⟩

/-- One iteration of the item loop in `collect_scene_items`. -/
def bucketItem (scene : Scene) (b : Buckets) (item : SceneItem) : Option Buckets :=
  match item.stacking_level with
  | .backgroundAndBorders =>
      some { b with background_and_borders := b.background_and_borders ++ [item] }
  | .blockBackgroundAndBorders =>
      some { b with block_background_and_borders :=
               b.block_background_and_borders ++ [item] }
  | .positionedContent =>
      (zIndexOf scene item).map
        (fun z => { b with positioned_content := b.positioned_content ++ [(item, z)] })
  | .floats => some { b with floats := b.floats ++ [item] }
  | .content => some { b with content := b.content ++ [item] }
  | .outlines => some { b with outlines := b.outlines ++ [item] }

def bucketItems (scene : Scene) : Buckets → List SceneItem → Option Buckets
  | b, [] => some b
  | b, item :: rest =>
      match bucketItem scene b item with
      | none => none
      | some b' => bucketItems scene b' rest

/-- The display-list loop of `collect_scene_items`: indexing
`display_list_map[id]` panics (`none`) when the id is unknown. -/
def bucketDisplayLists (scene : Scene) : Buckets → List Nat → Option Buckets
  | b, [] => some b
  | b, dlid :: rest =>
      match lookupA scene.display_list_map dlid with
      | none => none
      | some dl =>
          match bucketItems scene b dl.items with
          | none => none
          | some b' => bucketDisplayLists scene b' rest

/-- The stacking context a `SceneItemKind` denotes, together with the initial
`background_and_borders` bucket (a pipeline prepends its background draw
list); `none` models the panicking `unwrap` on a missing root stacking
context. -/
def kindStackingContext (scene : Scene) (kind : SceneItemKind) :
    Option (List SceneItem × StackingContext) :=
  match kind with
  | .stackingContext ssc => some ([], ssc.stacking_context)
  | .pipeline p =>
      match lookupA scene.stacking_context_map p.root_stacking_context_id with
      | none => none
      | some root =>
          let bb :=
            match p.background_draw_list with
            | some dlid =>
                [⟨StackingLevel.backgroundAndBorders, .drawList dlid⟩]
            | none => []
          some (bb, root.stacking_context)

/-- The comparator of the `sort_by` call in `collect_scene_items`; Rust's
`sort_by` is a stable sort, modelled by `List.insertionSort` with the
non-strict comparison (which is stable). -/
def zLe (a b : SceneItem × ℤ) : Prop := a.2 ≤ b.2

instance : DecidableRel zLe := fun a b => inferInstanceAs (Decidable (a.2 ≤ b.2))

instance : IsTotal (SceneItem × ℤ) zLe := ⟨fun a b => Int.le_total a.2 b.2⟩

instance : IsTrans (SceneItem × ℤ) zLe := ⟨fun _ _ _ => Int.le_trans⟩

/-- `SceneItemKind::collect_scene_items` from `frame.rs`. -/
def collect_scene_items (scene : Scene) (kind : SceneItemKind) :
    Option (List SceneItem) :=
  match kindStackingContext scene kind with
  | none => none
  | some (bb0, sc) =>
      match bucketDisplayLists scene { Buckets.empty with background_and_borders := bb0 }
              sc.display_lists with
      | none => none
      | some b =>
          let sorted := List.insertionSort zLe b.positioned_content
          some (b.background_and_borders ++
            (sorted.filter (fun p => decide (p.2 < 0))).map Prod.fst ++
            b.block_background_and_borders ++
            b.floats ++
            b.content ++
            (sorted.filter (fun p => !decide (p.2 < 0))).map Prod.fst ++
            b.outlines)

/-- An item inserted into a layer's AABB tree (`Layer::insert` call site in
`add_items_to_target`); the tree structure itself is irrelevant to the
claims, so insertions are kept as an ordered list. -/
structure LayerEntry where
  rect : Rect2
  draw_list_group_id : Nat
  draw_list_id : Nat
  item_index : Nat
deriving DecidableEq, Repr

/-- Modelled from the spec: `layer::Layer` — `world_origin`, `layer_size`,
`viewport_size`, `scroll_offset`, `local_transform`, `world_transform`
(derived), `children`, and the spatial index of inserted items.  `layer.rs`
is not in the given sources. -/
structure Layer where
  world_origin : Point2
  layer_size : Size2
  viewport_size : Size2
  scroll_offset : Point2
  local_transform : Matrix4
  world_transform : Matrix4
  children : List ScrollLayerId
  items : List LayerEntry
deriving DecidableEq, Repr

/-- Modelled from the spec: `Layer::new(world_origin, layer_size,
viewport_size, transform)` — scroll offset starts at zero, the passed
transform is the local transform, the derived `world_transform` starts as
the identity, no children or items. -/
def Layer.new (world_origin : Point2) (layer_size : Size2)
    (viewport_size : Size2) (transform : Matrix4) : Layer :=
  ⟨world_origin, layer_size, viewport_size, Point2.zero, transform,
   Matrix4.identity, [], []⟩

/-- Modelled from the spec: `Layer::add_child`. -/
def Layer.add_child (l : Layer) (child : ScrollLayerId) : Layer :=
  { l with children := l.children ++ [child] }

/-- Modelled from the spec: `Layer::insert` records an item in the spatial
index. -/
def Layer.insert (l : Layer) (rect : Rect2) (gid dlid idx : Nat) : Layer :=
  { l with items := l.items ++ [⟨rect, gid, dlid, idx⟩] }

/-- Modelled from the spec: `Layer::finalize(scroll_offset)` re-applies the
scroll state captured from the previous frame. -/
def Layer.finalize (l : Layer) (offset : Point2) : Layer :=
  { l with scroll_offset := offset }

/-- Modelled from the spec: one display item of a stored draw list; only its
`rect` is read by `add_items_to_target`. -/
structure DrawListItemData where
  rect : Rect2
deriving DecidableEq, Repr

/-- Modelled from the spec: the draw lists stored by the resource cache; only
`items` and the `stacking_context_index` written by `add_items_to_target`
are observable from `frame.rs`. -/
structure DrawListData where
  items : List DrawListItemData
  stacking_context_index : Option Nat
deriving DecidableEq, Repr

/-- Modelled from the spec: the slice of `resource_cache::ResourceCache`
visible to `frame.rs` during flattening — the draw-list store
(`get_draw_list_mut`). -/
structure ResourceCache where
  draw_lists : List (Nat × DrawListData)
deriving DecidableEq, Repr

/-- `internal_types::StackingContextInfo`, modelled from the spec. -/
structure StackingContextInfo where
  offset_from_layer : Point2
  local_clip_rect : Rect2
  transform : Matrix4
  perspective : Matrix4
deriving DecidableEq, Repr

/-- `FlattenInfo` from `frame.rs`. -/
structure FlattenInfo where
  viewport_size : Size2
  current_clip_rect : Rect2
  default_scroll_layer_id : ScrollLayerId
  actual_scroll_layer_id : ScrollLayerId
  offset_from_origin : Point2
  offset_from_current_layer : Point2
  transform : Matrix4
  perspective : Matrix4
deriving DecidableEq, Repr

/-- The mutable state threaded through `Frame::flatten`: the `Frame` fields
it writes plus the `FlattenContext` (current draw-list group, resource
cache, pipeline sizes). -/
structure FlattenState where
  layers : List (ScrollLayerId × Layer)
  pipeline_epoch_map : List (Nat × Nat)
  stacking_context_info : List StackingContextInfo
  next_render_target_id : Nat
  next_draw_list_group_id : Nat
  draw_list_groups : List (Nat × DrawListGroup)
  current_draw_list_group : Option DrawListGroup
  cache : ResourceCache
  pipeline_sizes : List (Nat × Size2)
deriving DecidableEq, Repr

/-- Modelled from the spec: `internal_types::MAX_RECT`, a very large finite
rect used as an open clip. -/
def MAX_RECT : Rect2 := ⟨⟨-1000000, -1000000⟩, ⟨2000000, 2000000⟩⟩

/-- The `SpecificSceneItem::DrawList` arm of `add_items_to_target`: tag the
draw list with the stacking-context index, open/flush the current draw-list
group as `can_add` dictates, push the draw-list id, and insert the draw
list's items into the actual scroll layer.  `none` models the panicking
`unwrap`s (unknown draw list, absent scroll layer). -/
def processDrawList (scIndex : Nat) (dlid : Nat) (info : FlattenInfo)
    (st : FlattenState) (target : RenderTarget) :
    Option (FlattenState × RenderTarget) :=
  match lookupA st.cache.draw_lists dlid with
  | none => none
  | some dl =>
    let dl := { dl with stacking_context_index := some scIndex }
    let st := { st with cache := ⟨insertA st.cache.draw_lists dlid dl⟩ }
    let needs_new_draw_group :=
      match st.current_draw_list_group with
      | some g => !g.can_add info.actual_scroll_layer_id target.id
      | none => true
    let (st, target) :=
      if needs_new_draw_group then
        let st :=
          match st.current_draw_list_group with
          | some g =>
              { st with draw_list_groups := insertA st.draw_list_groups g.id g,
                        current_draw_list_group := none }
          | none => st
        let gid := st.next_draw_list_group_id
        let st :=
          { st with
              next_draw_list_group_id := gid + 1,
              current_draw_list_group :=
                some (DrawListGroup.new gid info.actual_scroll_layer_id target.id) }
        (st, target.push_draw_list_group gid)
      else
        (st, target)
    let st :=
      { st with current_draw_list_group :=
          st.current_draw_list_group.map (fun (g : DrawListGroup) => g.push dlid) }
    match st.current_draw_list_group with
    | none => none
    | some g =>
      match lookupA st.layers info.actual_scroll_layer_id with
      | none => none
      | some layer =>
        let layer :=
          (dl.items.enum).foldl
            (fun (l : Layer) (p : Nat × DrawListItemData) =>
              l.insert (p.2.rect.translate info.offset_from_current_layer)
                g.id dlid p.1)
            layer
        some ({ st with layers := insertA st.layers info.actual_scroll_layer_id layer },
              target)

/-- The prologue of `Frame::flatten`: resolve the stacking context behind a
`SceneItemKind`; a pipeline additionally records its epoch.  `none` models
the panicking `unwrap` on a missing root stacking context. -/
def flattenKindSetup (scene : Scene) (kind : SceneItemKind) (st : FlattenState) :
    Option (FlattenState × StackingContext) :=
  match kind with
  | .stackingContext ssc => some (st, ssc.stacking_context)
  | .pipeline p =>
      let st := { st with pipeline_epoch_map :=
                    insertA st.pipeline_epoch_map p.pipeline_id p.epoch }
      match lookupA scene.stacking_context_map p.root_stacking_context_id with
      | none => none
      | some root => some (st, root.stacking_context)

/-- The scroll-policy match of `Frame::flatten`: fixed contexts retarget to
the fixed layer; scrollable contexts with an id create a new `Layer`, attach
it to the parent's actual scroll layer when different, and reset the
layer-relative coordinate system. -/
def setupScrollPolicy (sc : StackingContext) (parent_info : FlattenInfo)
    (info : FlattenInfo) (transform : Matrix4) (st : FlattenState) :
    Option (FlattenInfo × FlattenState) :=
  match sc.scroll_policy, sc.scroll_layer_id with
  | .fixedPolicy, _ =>
      some ({ info with actual_scroll_layer_id := ScrollLayerId.fixedLayer }, st)
  | .scrollable, some scroll_layer_id =>
      let layer := Layer.new parent_info.offset_from_origin sc.overflow.size
        parent_info.viewport_size transform
      let st0 :=
        if parent_info.actual_scroll_layer_id = scroll_layer_id then
          some st
        else
          match lookupA st.layers parent_info.actual_scroll_layer_id with
          | none => none
          | some parent_layer =>
              some ({ st with layers := insertA st.layers parent_info.actual_scroll_layer_id (parent_layer.add_child scroll_layer_id) })
      match st0 with
      | none => none
      | some st =>
          some ({ info with
                    default_scroll_layer_id := scroll_layer_id,
                    actual_scroll_layer_id := scroll_layer_id,
                    offset_from_current_layer := Point2.zero,
                    transform := Matrix4.identity,
                    perspective := Matrix4.identity },
                { st with layers := insertA st.layers scroll_layer_id layer })
  | .scrollable, none => some (info, st)

/-- The prologue of `Frame::add_items_to_target`: push a
`StackingContextInfo` entry derived from the current `FlattenInfo`. -/
def pushStackingContextInfo (info : FlattenInfo) (st : FlattenState) :
    FlattenState :=
  { st with
      stacking_context_info := st.stacking_context_info ++
        [⟨info.offset_from_current_layer, info.current_clip_rect,
          info.transform, info.perspective⟩] }

mutual

/-- `Frame::flatten` from `frame.rs`, with explicit fuel for the id-linked
recursion through the scene (`none` on fuel exhaustion or a panic).  The
call to `add_items_to_target` is inlined (capture the stacking-context
index, push the info entry, run the item loop) so that the mutual recursion
is structural in the fuel. -/
def flatten (scene : Scene) (fuel : Nat) (kind : SceneItemKind)
    (parent_info : FlattenInfo) (st : FlattenState) (target : RenderTarget) :
    Option (FlattenState × RenderTarget) :=
  match fuel with
  | 0 => none
  | fuel + 1 =>
    match flattenKindSetup scene kind st with
    | none => none
    | some (st, stacking_context) =>
      match (parent_info.current_clip_rect.translate
               stacking_context.bounds.origin.neg).intersection
              stacking_context.overflow with
      | none => some (st, target)
      | some local_clip_rect =>
        match collect_scene_items scene kind with
        | none => none
        | some scene_items =>
          if scene_items.isEmpty then some (st, target)
          else
            let origin := parent_info.offset_from_current_layer.add
              stacking_context.bounds.origin
            let local_transform :=
              ((Matrix4.identity.translate origin.x origin.y 0).mul
                  stacking_context.transform).translate (-origin.x) (-origin.y) 0
            let transform :=
              (parent_info.perspective.mul parent_info.transform).mul
                local_transform
            let perspective :=
              ((Matrix4.identity.translate origin.x origin.y 0).mul
                  stacking_context.perspective).translate (-origin.x) (-origin.y) 0
            let info : FlattenInfo :=
              { viewport_size := parent_info.viewport_size,
                offset_from_origin := parent_info.offset_from_origin.add
                  stacking_context.bounds.origin,
                offset_from_current_layer :=
                  parent_info.offset_from_current_layer.add
                    stacking_context.bounds.origin,
                default_scroll_layer_id := parent_info.default_scroll_layer_id,
                actual_scroll_layer_id := parent_info.default_scroll_layer_id,
                current_clip_rect := local_clip_rect,
                transform := transform,
                perspective := perspective }
            match setupScrollPolicy stacking_context parent_info info transform st with
            | none => none
            | some (info, st) =>
              let target :=
                if stacking_context.establishes_3d_context &&
                    stacking_context.has_stacking_contexts then
                  target.push_clear ⟨false, true, true⟩
                else
                  target
              let composition_operations := stacking_context.composition_operations
              if composition_operations.isEmpty then
                itemsLoop scene fuel st.stacking_context_info.length scene_items
                  info (pushStackingContextInfo info st) target
              else
                let target_size : SizeI :=
                  ⟨qTrunc local_clip_rect.size.width,
                   qTrunc local_clip_rect.size.height⟩
                let target_origin : PointI :=
                  ⟨qTrunc info.offset_from_origin.x,
                   qTrunc info.offset_from_origin.y⟩
                let unfiltered_target_rect : RectI := ⟨target_origin, target_size⟩
                let target_rect :=
                  composition_operations.foldl
                    (fun r op => op.targetRect r) unfiltered_target_rect
                let render_target_index := target.children.length
                let render_target_id := st.next_render_target_id
                let st := { st with next_render_target_id := render_target_id + 1 }
                let new_target := RenderTarget.new render_target_id
                  ⟨(target_rect.size.width : ℚ), (target_rect.size.height : ℚ)⟩
                let target :=
                  composition_operations.foldl
                    (fun t op => t.push_composite op target_rect render_target_index)
                    target
                let info := { info with offset_from_current_layer := Point2.zero }
                match itemsLoop scene fuel st.stacking_context_info.length
                        scene_items info (pushStackingContextInfo info st)
                        new_target with
                | none => none
                | some (st, new_target) => some (st, target.pushChild new_target)
termination_by structural fuel

/-- The item loop of `add_items_to_target` (fuel-indexed so that the mutual
recursion with `flatten` is structural). -/
def itemsLoop (scene : Scene) (fuel : Nat) (scIndex : Nat)
    (scene_items : List SceneItem) (info : FlattenInfo) (st : FlattenState)
    (target : RenderTarget) : Option (FlattenState × RenderTarget) :=
  match fuel with
  | 0 => none
  | fuel + 1 =>
    match scene_items with
    | [] => some (st, target)
    | item :: rest =>
      match
        (match item.specific with
         | .drawList dlid => processDrawList scIndex dlid info st target
         | .stackingContext id =>
             match lookupA scene.stacking_context_map id with
             | none => none
             | some ssc => flatten scene fuel (.stackingContext ssc) info st target
         | .iframe iframe_info =>
             let st := { st with pipeline_sizes := insertA st.pipeline_sizes iframe_info.id iframe_info.bounds.size }
             match lookupA scene.pipeline_map iframe_info.id with
             | none => some (st, target)
             | some pipeline =>
                 let iframe_flatten_info : FlattenInfo :=
                   { viewport_size := iframe_info.bounds.size,
                     offset_from_origin := info.offset_from_origin.add
                       iframe_info.bounds.origin,
                     offset_from_current_layer := info.offset_from_current_layer.add
                       iframe_info.bounds.origin,
                     default_scroll_layer_id := info.default_scroll_layer_id,
                     actual_scroll_layer_id := info.actual_scroll_layer_id,
                     current_clip_rect := MAX_RECT,
                     transform := info.transform,
                     perspective := info.perspective }
                 flatten scene fuel (.pipeline pipeline) iframe_flatten_info st target)
      with
      | none => none
      | some (st, target) => itemsLoop scene fuel scIndex rest info st target
termination_by structural fuel

end

/-- `Frame::add_items_to_target` from `frame.rs`: append a
`StackingContextInfo` entry, then process the items. -/
def add_items_to_target (scene : Scene) (fuel : Nat)
    (scene_items : List SceneItem) (info : FlattenInfo) (st : FlattenState)
    (target : RenderTarget) : Option (FlattenState × RenderTarget) :=
  itemsLoop scene fuel st.stacking_context_info.length scene_items info
    (pushStackingContextInfo info st) target

/-- `Frame` from `frame.rs` (`pending_updates` and the threading-only fields
carry no observable state for the claims and are omitted; `root` is the
render-target tree). -/
structure Frame where
  layers : List (ScrollLayerId × Layer)
  pipeline_epoch_map : List (Nat × Nat)
  stacking_context_info : List StackingContextInfo
  next_render_target_id : Nat
  next_draw_list_group_id : Nat
  draw_list_groups : List (Nat × DrawListGroup)
  root_scroll_layer_id : Option ScrollLayerId
  root : Option RenderTarget
deriving Repr

/-- `Frame::new` from `frame.rs`. -/
def Frame.new : Frame :=
  ⟨[], [], [], 0, 0, [], none, none⟩

mutual

/-- `RenderTarget::reset` from `frame.rs`, as the list of
`free_render_target` calls it issues to the resource cache: the target's own
`child_texture_id` (if held) first, then the children in order. -/
def RenderTarget.resetFrees : RenderTarget → List Nat
  | .mk _ children _ child_texture_id _ =>
      (match child_texture_id with
       | some t => [t]
       | none => []) ++ renderTargetListFrees children

def renderTargetListFrees : List RenderTarget → List Nat
  | [] => []
  | t :: ts => t.resetFrees ++ renderTargetListFrees ts

end

/-- `Frame::reset` from `frame.rs`: clear the draw-list groups, the epoch
map and the stacking-context info, drop the render-target tree (freeing its
textures through the resource cache — returned here as the list of freed
texture ids), and drain the layers, capturing their scroll offsets. -/
def Frame.reset (f : Frame) :
    Frame × List (ScrollLayerId × Point2) × List Nat :=
  let freed :=
    match f.root with
    | some root => root.resetFrees
    | none => []
  let old_layer_offsets := f.layers.map (fun p => (p.1, p.2.scroll_offset))
  ({ f with
      draw_list_groups := [],
      pipeline_epoch_map := [],
      stacking_context_info := [],
      root := none,
      layers := [] },
   old_layer_offsets, freed)

/-- `Frame::create` from `frame.rs`.  A missing root pipeline id or an
unknown root pipeline leaves the frame untouched (the outer `if let`s simply
fall through); a missing root stacking context or a root stacking context
without a scroll layer panics (`none`).  Returns the new frame together with
the updated resource cache and pipeline-size map. -/
def Frame.create (f : Frame) (scene : Scene) (cache : ResourceCache)
    (pipeline_sizes : List (Nat × Size2)) (viewport_size : Size2) (fuel : Nat) :
    Option (Frame × ResourceCache × List (Nat × Size2)) :=
  match scene.root_pipeline_id with
  | none => some (f, cache, pipeline_sizes)
  | some root_pipeline_id =>
    match lookupA scene.pipeline_map root_pipeline_id with
    | none => some (f, cache, pipeline_sizes)
    | some root_pipeline =>
      let r := f.reset
      let f := r.1
      let old_layer_offsets := r.2.1
      match lookupA scene.stacking_context_map
              root_pipeline.root_stacking_context_id with
      | none => none
      | some root_stacking_context =>
        match root_stacking_context.stacking_context.scroll_layer_id with
        | none => none
        | some root_scroll_layer_id =>
          let f := { f with root_scroll_layer_id := some root_scroll_layer_id }
          let root_target_id := f.next_render_target_id
          let f := { f with next_render_target_id := root_target_id + 1 }
          let root_target := RenderTarget.new root_target_id viewport_size
          let f :=
            { f with
                layers := insertA f.layers ScrollLayerId.fixedLayer
                  (Layer.new root_stacking_context.stacking_context.overflow.origin
                    root_stacking_context.stacking_context.overflow.size
                    viewport_size Matrix4.identity) }
          let st : FlattenState :=
            { layers := f.layers,
              pipeline_epoch_map := f.pipeline_epoch_map,
              stacking_context_info := f.stacking_context_info,
              next_render_target_id := f.next_render_target_id,
              next_draw_list_group_id := f.next_draw_list_group_id,
              draw_list_groups := f.draw_list_groups,
              current_draw_list_group := none,
              cache := cache,
              pipeline_sizes := pipeline_sizes }
          let parent_info : FlattenInfo :=
            { viewport_size := viewport_size,
              offset_from_origin := Point2.zero,
              offset_from_current_layer := Point2.zero,
              default_scroll_layer_id := root_scroll_layer_id,
              actual_scroll_layer_id := root_scroll_layer_id,
              current_clip_rect := MAX_RECT,
              transform := Matrix4.identity,
              perspective := Matrix4.identity }
          match flatten scene fuel (.pipeline root_pipeline) parent_info st
                  root_target with
          | none => none
          | some (st, root_target) =>
            let st :=
              match st.current_draw_list_group with
              | some g =>
                  { st with
                      draw_list_groups := insertA st.draw_list_groups g.id g,
                      current_draw_list_group := none }
              | none => st
            let layers := st.layers.map
              (fun p => (p.1,
                p.2.finalize ((lookupA old_layer_offsets p.1).getD Point2.zero)))
            some ({ layers := layers,
                    pipeline_epoch_map := st.pipeline_epoch_map,
                    stacking_context_info := st.stacking_context_info,
                    next_render_target_id := st.next_render_target_id,
                    next_draw_list_group_id := st.next_draw_list_group_id,
                    draw_list_groups := st.draw_list_groups,
                    root_scroll_layer_id := some root_scroll_layer_id,
                    root := some root_target },
                  st.cache, st.pipeline_sizes)

/-- Modelled from the spec: `geometry::ray_intersects_rect` (`geometry.rs`
is not in the given sources) — intersect the segment `p0 → p1` with the
`z = 0` plane and test the crossing point against the rect
(lower-inclusive, upper-exclusive). -/
def rayIntersectsRect (p0 p1 : Point3) (rect : Rect2) : Bool :=
  if p0.z = p1.z then
    decide (p0.z = 0) &&
      decide (rect.origin.x ≤ p0.x) && decide (p0.x < rect.origin.x + rect.size.width) &&
      decide (rect.origin.y ≤ p0.y) && decide (p0.y < rect.origin.y + rect.size.height)
  else
    let t := p0.z / (p0.z - p1.z)
    let cx := p0.x + t * (p1.x - p0.x)
    let cy := p0.y + t * (p1.y - p0.y)
    decide (0 ≤ t) && decide (t ≤ 1) &&
      decide (rect.origin.x ≤ cx) && decide (cx < rect.origin.x + rect.size.width) &&
      decide (rect.origin.y ≤ cy) && decide (cy < rect.origin.y + rect.size.height)

/-- `Frame::get_scroll_layer` from `frame.rs`, with fuel for the recursion
through the (potentially cyclic) child-layer graph: search the children
depth-first, then — unless this is the fixed layer — unproject the cursor
through the inverted accumulated transform and hit-test the layer rect. -/
def Frame.get_scroll_layer (f : Frame) (fuel : Nat) (cursor : Point2)
    (scroll_layer_id : ScrollLayerId) (parent_transform : Matrix4) :
    Option ScrollLayerId :=
  match fuel with
  | 0 => none
  | fuel + 1 =>
    match lookupA f.layers scroll_layer_id with
    | none => none
    | some layer =>
      let transform := parent_transform.mul layer.local_transform
      match layer.children.findSome?
              (fun child_layer_id =>
                f.get_scroll_layer fuel cursor child_layer_id transform) with
      | some layer_id => some layer_id
      | none =>
        match scroll_layer_id with
        | .fixedLayer => none
        | .normal _ =>
          let inv := transform.invert
          let z0 : ℚ := -10000
          let z1 : ℚ := 10000
          let p0h := inv.transformPoint4d ⟨cursor.x, cursor.y, z0, 1⟩
          let p0 : Point3 := ⟨p0h.x / p0h.w, p0h.y / p0h.w, p0h.z / p0h.w⟩
          let p1h := inv.transformPoint4d ⟨cursor.x, cursor.y, z1, 1⟩
          let p1 : Point3 := ⟨p1h.x / p1h.w, p1h.y / p1h.w, p1h.z / p1h.w⟩
          let layer_rect : Rect2 := ⟨layer.world_origin, layer.viewport_size⟩
          if rayIntersectsRect p0 p1 layer_rect then
            some scroll_layer_id
          else
            none

/-- `Frame::scroll` from `frame.rs`: hit-test from the root scroll layer; on
a hit, per axis where the layer is larger than its viewport add the delta
and clamp to `[-(layer_size - viewport_size), 0]`, then round both
components. -/
def Frame.scroll (f : Frame) (fuel : Nat) (delta cursor : Point2) : Frame :=
  match f.root_scroll_layer_id with
  | none => f
  | some root_scroll_layer_id =>
    match f.get_scroll_layer fuel cursor root_scroll_layer_id Matrix4.identity with
    | none => f
    | some scroll_layer_id =>
      match lookupA f.layers scroll_layer_id with
      | none => f
      | some layer =>
        let ox :=
          if layer.layer_size.width > layer.viewport_size.width then
            max (min (layer.scroll_offset.x + delta.x) 0)
              (-layer.layer_size.width + layer.viewport_size.width)
          else
            layer.scroll_offset.x
        let oy :=
          if layer.layer_size.height > layer.viewport_size.height then
            max (min (layer.scroll_offset.y + delta.y) 0)
              (-layer.layer_size.height + layer.viewport_size.height)
          else
            layer.scroll_offset.y
        let layer := { layer with scroll_offset := ⟨f32Round ox, f32Round oy⟩ }
        { f with layers := insertA f.layers scroll_layer_id layer }

/-- `Frame::update_layer_transform` from `frame.rs`, with fuel for the
recursion through the child-layer graph: set
`world_transform = parent · local · T(world_origin) · T(scroll_offset)` and
recurse into the children with the updated transform. -/
def updateLayerTransform (fuel : Nat) (layers : List (ScrollLayerId × Layer))
    (layer_id : ScrollLayerId) (parent_transform : Matrix4) :
    List (ScrollLayerId × Layer) :=
  match fuel with
  | 0 => layers
  | fuel + 1 =>
    match lookupA layers layer_id with
    | none => layers
    | some layer =>
      let layer_transform :=
        ((parent_transform.mul layer.local_transform).translate
            layer.world_origin.x layer.world_origin.y 0).translate
          layer.scroll_offset.x layer.scroll_offset.y 0
      let layers :=
        insertA layers layer_id { layer with world_transform := layer_transform }
      layer.children.foldl
        (fun ls child_layer_id =>
          updateLayerTransform fuel ls child_layer_id layer_transform)
        layers

/-- `Frame::update_layer_transforms` from `frame.rs`. -/
def Frame.update_layer_transforms (f : Frame) (fuel : Nat) : Frame :=
  match f.root_scroll_layer_id with
  | none => f
  | some root_scroll_layer_id =>
      { f with
          layers := updateLayerTransform fuel f.layers root_scroll_layer_id
            Matrix4.identity }

/-- `Frame::build` from `frame.rs`, restricted to the state present in this
model: of build's phases (cull, resource lists, raster, compile, batch-cache
update, transform update, batch collection) only `update_layer_transforms`
writes any field modelled here — the others touch AABB-node visibility,
compiled nodes, the resource cache and the returned `RendererFrame` only. -/
def Frame.build (f : Frame) (fuel : Nat) : Frame :=
  f.update_layer_transforms fuel

/-- A concrete scrollable layer (content 200×100 inside a 100×100 viewport)
used to exercise `get_scroll_layer` and `scroll` on a real input. -/
def c10layer : Layer :=
  { world_origin := ⟨0, 0⟩,
    layer_size := ⟨200, 100⟩,
    viewport_size := ⟨100, 100⟩,
    scroll_offset := ⟨0, 0⟩,
    local_transform := Matrix4.identity,
    world_transform := Matrix4.identity,
    children := [],
    items := [] }

/-- A concrete one-layer frame whose root scroll layer is `c10layer`. -/
def c10frame : Frame :=
  { layers := [(ScrollLayerId.normal 0, c10layer)],
    pipeline_epoch_map := [],
    stacking_context_info := [],
    next_render_target_id := 1,
    next_draw_list_group_id := 0,
    draw_list_groups := [],
    root_scroll_layer_id := some (ScrollLayerId.normal 0),
    root := none }

theorem foldl_append_filterToOps (l : List FilterOp) (init : List CompositionOp) :
    l.foldl (fun acc f => acc ++ filterToOps f) init = init ++ l.flatMap filterToOps := by
  induction l generalizing init with
  | nil => simp
  | cons f rest ih => simp [List.foldl_cons, ih, List.flatMap_cons]

theorem needs_composition_iff (sc : StackingContext) :
    sc.needs_composition_operation_for_mix_blend_mode =
      !decide (sc.mix_blend_mode = .normal) := by
  cases h : sc.mix_blend_mode <;>
    simp [StackingContext.needs_composition_operation_for_mix_blend_mode, h]

theorem filterToOps_no_mixBlend (f : FilterOp) (o : CompositionOp)
    (h : o ∈ filterToOps f) : ∃ llf, o = .filterOp llf := by
  cases f with
  | blur r =>
    simp [filterToOps] at h
    rcases h with h | h <;> exact ⟨_, h⟩
  | brightness a => exact ⟨_, by simpa [filterToOps] using h⟩
  | contrast a => exact ⟨_, by simpa [filterToOps] using h⟩
  | grayscale a => exact ⟨_, by simpa [filterToOps] using h⟩
  | hueRotate a => exact ⟨_, by simpa [filterToOps] using h⟩
  | invertFilter a => exact ⟨_, by simpa [filterToOps] using h⟩
  | opacity a => exact ⟨_, by simpa [filterToOps] using h⟩
  | saturate a => exact ⟨_, by simpa [filterToOps] using h⟩
  | sepia a => exact ⟨_, by simpa [filterToOps] using h⟩

/-- C6: `composition_operations` yields `MixBlend(mode)` first exactly when
the mix-blend mode is not `Normal` (so `MixBlend(Normal)` produces no
operation), followed by the lowering of each filter in input order, with
`Blur(r)` expanding to the horizontal then the vertical pass and
`HueRotate(angle)` becoming `round(angle · ANGLE_FLOAT_TO_FIXED)` as an
integer. -/
theorem composition_operations_spec (sc : StackingContext) :
    sc.composition_operations =
      (if sc.mix_blend_mode = .normal then [] else
        [CompositionOp.mixBlend sc.mix_blend_mode]) ++
        sc.filters.flatMap (fun f =>
          match f with
          | .blur radius =>
              [.filterOp (.blur radius .horizontal),
               .filterOp (.blur radius .vertical)]
          | .brightness a => [.filterOp (.brightness (auFromPx a))]
          | .contrast a => [.filterOp (.contrast (auFromPx a))]
          | .grayscale a => [.filterOp (.grayscale (auFromPx a))]
          | .hueRotate angle =>
              [.filterOp (.hueRotate
                (qTrunc (f32Round (angle * ANGLE_FLOAT_TO_FIXED))))]
          | .invertFilter a => [.filterOp (.invertFilter (auFromPx a))]
          | .opacity a => [.filterOp (.opacity (auFromPx a))]
          | .saturate a => [.filterOp (.saturate (auFromPx a))]
          | .sepia a => [.filterOp (.sepia (auFromPx a))]) ∧
    (∀ mode, CompositionOp.mixBlend mode ∈ sc.composition_operations ↔
      (mode = sc.mix_blend_mode ∧ sc.mix_blend_mode ≠ .normal)) ∧
    (sc.mix_blend_mode ≠ .normal →
      sc.composition_operations.head? = some (.mixBlend sc.mix_blend_mode)) := by
  have hmain : sc.composition_operations =
      (if sc.mix_blend_mode = .normal then [] else
        [CompositionOp.mixBlend sc.mix_blend_mode]) ++
        sc.filters.flatMap filterToOps := by
    unfold StackingContext.composition_operations
    rw [foldl_append_filterToOps, needs_composition_iff]
    by_cases h : sc.mix_blend_mode = .normal <;> simp [h]
  refine ⟨?_, ?_, ?_⟩
  · rw [hmain]
    rfl
  · intro mode
    rw [hmain]
    constructor
    · intro hmem
      rcases List.mem_append.mp hmem with hmem | hmem
      · by_cases h : sc.mix_blend_mode = .normal
        · simp [h] at hmem
        · simp [h] at hmem
          exact ⟨hmem, h⟩
      · rcases List.mem_flatMap.mp hmem with ⟨f, _, hopmem⟩
        rcases filterToOps_no_mixBlend f _ hopmem with ⟨llf, heq⟩
        cases heq
    · rintro ⟨rfl, hne⟩
      simp [hne]
  · intro hne
    rw [hmain]
    simp [hne]

/-- Witness for `composition_operations_spec`: discharging the hypothesis of
its final conjunct on a concrete stacking context. -/
def c6sc : StackingContext :=
  { bounds := ⟨⟨0, 0⟩, ⟨10, 10⟩⟩, overflow := ⟨⟨0, 0⟩, ⟨10, 10⟩⟩,
    transform := Matrix4.identity, perspective := Matrix4.identity,
    mix_blend_mode := .multiply,
    filters := [.blur 4, .hueRotate (1/2)],
    scroll_policy := .scrollable, scroll_layer_id := none,
    establishes_3d_context := false, has_stacking_contexts := false,
    z_index := 0, display_lists := [] }

theorem composition_operations_spec_witness :
    c6sc.mix_blend_mode ≠ MixBlendMode.normal ∧
      c6sc.composition_operations.head? =
        some (.mixBlend c6sc.mix_blend_mode) :=
  ⟨by decide, (composition_operations_spec c6sc).2.2 (by decide)⟩

theorem items_withItems (rt : RenderTarget) (l : List FrameRenderItem) :
    (rt.withItems l).items = l := by
  cases rt
  rfl

/-- C7: `push_composite` appends its job to the trailing `CompositeBatch`
exactly when that batch carries the identical operation and the pushed
operation needs no framebuffer read; in every other case (different
operation, framebuffer-reading operation, trailing `Clear` or
`DrawListBatch`, empty item list) a fresh single-job batch is appended. -/
theorem push_composite_spec (rt : RenderTarget) (op : CompositionOp)
    (target : RectI) (idx : Nat) :
    (∀ info, rt.items.getLast? = some (.compositeBatch info) →
      info.operation = op → op.needsFramebuffer = false →
      (rt.push_composite op target idx).items =
        rt.items.dropLast ++
          [.compositeBatch ⟨info.operation, info.jobs ++ [⟨target, idx⟩]⟩]) ∧
    ((op.needsFramebuffer = true ∨
        ∀ info, rt.items.getLast? = some (.compositeBatch info) →
          info.operation ≠ op) →
      (rt.push_composite op target idx).items =
        rt.items ++ [.compositeBatch ⟨op, [⟨target, idx⟩]⟩]) := by
  constructor
  · intro info hlast hop hfb
    simp [RenderTarget.push_composite, hlast, hfb, hop, items_withItems]
  · intro hcond
    have hneed :
        (op.needsFramebuffer ||
          (match rt.items.getLast? with
           | some (.compositeBatch info) => !decide (info.operation = op)
           | some (.clear _) => true
           | some (.drawListBatch _) => true
           | none => true)) = true := by
      rcases hcond with hfb | hne
      · simp [hfb]
      · cases hlast : rt.items.getLast? with
        | none => simp
        | some item =>
          cases item with
          | clear i => simp
          | drawListBatch g => simp
          | compositeBatch info =>
            have := hne info hlast
            simp [this]
    simp only [RenderTarget.push_composite, hneed]
    simp [items_withItems, List.getLast?_concat, List.dropLast_concat]

/-- Witness data for `push_composite_spec`: a target whose last item is a
composite batch with a mergeable operation. -/
def c7op : CompositionOp := .filterOp (.opacity 30)

def c7rt : RenderTarget :=
  .mk 0 [] [.clear ⟨true, true, true⟩, .compositeBatch ⟨c7op, [⟨⟨⟨0, 0⟩, ⟨4, 4⟩⟩, 0⟩]⟩]
    none ⟨8, 8⟩

def c7rect : RectI := ⟨⟨1, 1⟩, ⟨2, 2⟩⟩

theorem push_composite_spec_witness :
    ((c7rt.push_composite c7op c7rect 1).items =
      c7rt.items.dropLast ++
        [.compositeBatch ⟨c7op, [⟨⟨⟨0, 0⟩, ⟨4, 4⟩⟩, 0⟩, ⟨c7rect, 1⟩]⟩]) ∧
    ((c7rt.push_composite (.mixBlend .multiply) c7rect 1).items =
      c7rt.items ++ [.compositeBatch ⟨.mixBlend .multiply, [⟨c7rect, 1⟩]⟩]) :=
  ⟨(push_composite_spec c7rt c7op c7rect 1).1 ⟨c7op, [⟨⟨⟨0, 0⟩, ⟨4, 4⟩⟩, 0⟩]⟩
      (by decide) (by decide) (by decide),
   (push_composite_spec c7rt (.mixBlend .multiply) c7rect 1).2
      (Or.inl (by decide))⟩

/-- The concatenated items of a run of display lists, in order (`none` when a
display-list id is unknown — the source indexes the map and would panic). -/
def displayListsItems (scene : Scene) : List Nat → Option (List SceneItem)
  | [] => some []
  | dlid :: rest =>
      match lookupA scene.display_list_map dlid with
      | none => none
      | some dl => (displayListsItems scene rest).map (fun L => dl.items ++ L)

/-- The `PositionedContent` items of a list paired with their z-indices
(`none` when a z-index lookup fails). -/
def weightedPositioned (scene : Scene) : List SceneItem → Option (List (SceneItem × ℤ))
  | [] => some []
  | i :: rest =>
      if i.stacking_level = .positionedContent then
        match zIndexOf scene i with
        | none => none
        | some z => (weightedPositioned scene rest).map (fun P => (i, z) :: P)
      else
        weightedPositioned scene rest

/-- The items of a list at one stacking level, in order. -/
def levelFilter (lvl : StackingLevel) (L : List SceneItem) : List SceneItem :=
  L.filter (fun i => decide (i.stacking_level = lvl))

theorem weightedPositioned_map_fst (scene : Scene) (L : List SceneItem)
    (P : List (SceneItem × ℤ)) (h : weightedPositioned scene L = some P) :
    P.map Prod.fst = levelFilter .positionedContent L := by
  induction L generalizing P with
  | nil =>
    simp [weightedPositioned] at h
    subst h
    simp [levelFilter]
  | cons i rest ih =>
    by_cases hl : i.stacking_level = .positionedContent
    · simp only [weightedPositioned, if_pos hl] at h
      cases hz : zIndexOf scene i with
      | none => rw [hz] at h; cases h
      | some z =>
        rw [hz] at h
        cases hr : weightedPositioned scene rest with
        | none => rw [hr] at h; cases h
        | some P' =>
          rw [hr] at h
          simp only [if_true, Option.map_some', Option.some_inj] at h
          subst h
          simp [levelFilter, hl, List.filter_cons, ih P' hr]
    · simp only [weightedPositioned, if_neg hl] at h
      simp [levelFilter, List.filter_cons, hl, ih P h]

theorem weightedPositioned_z (scene : Scene) (L : List SceneItem)
    (P : List (SceneItem × ℤ)) (h : weightedPositioned scene L = some P) :
    ∀ p ∈ P, zIndexOf scene p.1 = some p.2 := by
  induction L generalizing P with
  | nil =>
    simp [weightedPositioned] at h
    subst h
    intro p hp
    cases hp
  | cons i rest ih =>
    by_cases hl : i.stacking_level = .positionedContent
    · simp only [weightedPositioned, if_pos hl] at h
      cases hz : zIndexOf scene i with
      | none => rw [hz] at h; cases h
      | some z =>
        rw [hz] at h
        cases hr : weightedPositioned scene rest with
        | none => rw [hr] at h; cases h
        | some P' =>
          rw [hr] at h
          simp only [if_true, Option.map_some', Option.some_inj] at h
          subst h
          intro p hp
          rcases List.mem_cons.mp hp with rfl | hp
          · exact hz
          · exact ih P' hr p hp
    · simp only [weightedPositioned, if_neg hl] at h
      exact ih P h

/-- Characterization of the bucket fold of `collect_scene_items`: each bucket
extends its input with the level filter of the processed items, with the
positioned bucket collecting the weighted items. -/
theorem bucketItems_spec (scene : Scene) (L : List SceneItem)
    (P : List (SceneItem × ℤ)) (hP : weightedPositioned scene L = some P) :
    ∀ b : Buckets, bucketItems scene b L = some
      { background_and_borders :=
          b.background_and_borders ++ levelFilter .backgroundAndBorders L,
        positioned_content := b.positioned_content ++ P,
        block_background_and_borders :=
          b.block_background_and_borders ++ levelFilter .blockBackgroundAndBorders L,
        floats := b.floats ++ levelFilter .floats L,
        content := b.content ++ levelFilter .content L,
        outlines := b.outlines ++ levelFilter .outlines L } := by
  induction L generalizing P with
  | nil =>
    intro b
    simp [weightedPositioned] at hP
    subst hP
    simp [bucketItems, levelFilter]
  | cons i rest ih =>
    intro b
    cases hl : i.stacking_level with
    | positionedContent =>
      simp only [weightedPositioned, hl, if_pos rfl] at hP
      cases hz : zIndexOf scene i with
      | none => rw [hz] at hP; cases hP
      | some z =>
        rw [hz] at hP
        cases hr : weightedPositioned scene rest with
        | none => rw [hr] at hP; cases hP
        | some P' =>
          rw [hr] at hP
          simp only [if_true, Option.map_some', Option.some_inj] at hP
          subst hP
          simp only [bucketItems, bucketItem, hl, hz, Option.map_some']
          rw [ih P' hr]
          simp [levelFilter, List.filter_cons, hl]
    | backgroundAndBorders =>
      simp only [weightedPositioned, hl] at hP
      simp only [bucketItems, bucketItem, hl]
      rw [ih P (by simpa using hP)]
      simp [levelFilter, List.filter_cons, hl]
    | blockBackgroundAndBorders =>
      simp only [weightedPositioned, hl] at hP
      simp only [bucketItems, bucketItem, hl]
      rw [ih P (by simpa using hP)]
      simp [levelFilter, List.filter_cons, hl]
    | floats =>
      simp only [weightedPositioned, hl] at hP
      simp only [bucketItems, bucketItem, hl]
      rw [ih P (by simpa using hP)]
      simp [levelFilter, List.filter_cons, hl]
    | content =>
      simp only [weightedPositioned, hl] at hP
      simp only [bucketItems, bucketItem, hl]
      rw [ih P (by simpa using hP)]
      simp [levelFilter, List.filter_cons, hl]
    | outlines =>
      simp only [weightedPositioned, hl] at hP
      simp only [bucketItems, bucketItem, hl]
      rw [ih P (by simpa using hP)]
      simp [levelFilter, List.filter_cons, hl]

theorem bucketItems_append (scene : Scene) (xs ys : List SceneItem) :
    ∀ b, bucketItems scene b (xs ++ ys) =
      (bucketItems scene b xs).bind (fun b' => bucketItems scene b' ys) := by
  induction xs with
  | nil => intro b; simp [bucketItems]
  | cons i rest ih =>
    intro b
    simp only [List.cons_append, bucketItems]
    cases bucketItem scene b i with
    | none => simp
    | some b' => simp [ih b']

theorem bucketDisplayLists_eq (scene : Scene) (dls : List Nat)
    (L : List SceneItem) (hL : displayListsItems scene dls = some L) :
    ∀ b, bucketDisplayLists scene b dls = bucketItems scene b L := by
  induction dls generalizing L with
  | nil =>
    intro b
    simp [displayListsItems] at hL
    subst hL
    simp [bucketDisplayLists, bucketItems]
  | cons dlid rest ih =>
    intro b
    simp only [displayListsItems] at hL
    cases hdl : lookupA scene.display_list_map dlid with
    | none => rw [hdl] at hL; cases hL
    | some dl =>
      rw [hdl] at hL
      cases hrest : displayListsItems scene rest with
      | none => rw [hrest] at hL; cases hL
      | some L' =>
        rw [hrest] at hL
        simp only [if_true, Option.map_some', Option.some_inj] at hL
        subst hL
        simp only [bucketDisplayLists, hdl]
        rw [bucketItems_append]
        cases hx : bucketItems scene b dl.items with
        | none => simp
        | some b' => simp [ih L' hrest b']

theorem filter_orderedInsert_key (v : ℤ) (a : SceneItem × ℤ)
    (l : List (SceneItem × ℤ)) :
    (List.orderedInsert zLe a l).filter (fun p => decide (p.2 = v)) =
      if a.2 = v then a :: l.filter (fun p => decide (p.2 = v))
      else l.filter (fun p => decide (p.2 = v)) := by
  induction l with
  | nil => by_cases hv : a.2 = v <;> simp [List.orderedInsert, hv]
  | cons b l ih =>
    by_cases hab : zLe a b
    · by_cases hv : a.2 = v <;>
        simp [List.orderedInsert, hab, List.filter_cons, hv]
    · have hba : b.2 < a.2 := by
        simp only [zLe, not_le] at hab
        exact hab
      by_cases hv : a.2 = v
      · have hbv : ¬ b.2 = v := by
          intro hc
          rw [hc, ← hv] at hba
          exact absurd hba (lt_irrefl _)
        simp only [List.orderedInsert, if_neg hab, List.filter_cons]
        simp [hbv, ih, hv]
      · by_cases hbv : b.2 = v <;>
          simp [List.orderedInsert, if_neg hab, List.filter_cons, hbv, ih, hv]

/-- Stability of the sort in `collect_scene_items`: for every z value the
subsequence of entries with that exact z is unchanged. -/
theorem filter_insertionSort_key (v : ℤ) (l : List (SceneItem × ℤ)) :
    (List.insertionSort zLe l).filter (fun p => decide (p.2 = v)) =
      l.filter (fun p => decide (p.2 = v)) := by
  induction l with
  | nil => rfl
  | cons a l ih =>
    simp only [List.insertionSort, filter_orderedInsert_key, ih, List.filter_cons]
    by_cases hv : a.2 = v <;> simp [hv]

theorem filter_neg_filter_key (v : ℤ) (hv : ¬ v < 0)
    (l : List (SceneItem × ℤ)) :
    (l.filter (fun p => decide (p.2 < 0))).filter (fun p => decide (p.2 = v)) = [] := by
  rw [List.filter_filter]
  apply List.filter_eq_nil_iff.mpr
  intro a _
  simp only [Bool.and_eq_true, decide_eq_true_eq, not_and]
  intro hav
  rw [hav]
  exact hv

theorem filter_nonneg_filter_key (v : ℤ) (hv : v < 0)
    (l : List (SceneItem × ℤ)) :
    (l.filter (fun p => !decide (p.2 < 0))).filter (fun p => decide (p.2 = v)) = [] := by
  rw [List.filter_filter]
  apply List.filter_eq_nil_iff.mpr
  intro a _
  simp only [Bool.and_eq_true, decide_eq_true_eq, Bool.not_eq_true',
    decide_eq_false_iff_not, not_and]
  intro hav
  rw [hav]
  simp [hv]

theorem filter_split_key (v : ℤ) (l : List (SceneItem × ℤ)) :
    (l.filter (fun p => decide (p.2 < 0))).filter (fun p => decide (p.2 = v)) ++
      (l.filter (fun p => !decide (p.2 < 0))).filter (fun p => decide (p.2 = v)) =
      l.filter (fun p => decide (p.2 = v)) := by
  by_cases hv : v < 0
  · rw [filter_nonneg_filter_key v hv, List.append_nil, List.filter_filter]
    apply List.filter_congr
    intro a _
    by_cases hav : a.2 = v
    · simp [hav, hv]
    · simp [hav]
  · rw [filter_neg_filter_key v hv, List.nil_append, List.filter_filter]
    apply List.filter_congr
    intro a _
    by_cases hav : a.2 = v
    · simp [hav, hv]
    · simp [hav]

/-- C2: the paint-order collector emits BackgroundAndBorders (with a
pipeline's background draw list prepended), the negative-z positioned items
sorted ascending, BlockBackgroundAndBorders, Floats, Content, the
non-negative-z positioned items sorted ascending, then Outlines; the sort is
stable (for every z the subsequence with exactly that z keeps input order),
z is the child stacking context's own `z_index`, and `DrawList`/`Iframe`
items count as z = 0 (the `zIndexOf` conjunct). -/
theorem collect_scene_items_spec (scene : Scene) (kind : SceneItemKind)
    (bb0 : List SceneItem) (sc : StackingContext) (L : List SceneItem)
    (P : List (SceneItem × ℤ)) (r : List SceneItem)
    (hk : kindStackingContext scene kind = some (bb0, sc))
    (hL : displayListsItems scene sc.display_lists = some L)
    (hP : weightedPositioned scene L = some P)
    (hr : collect_scene_items scene kind = some r) :
    ∃ S1 S2 : List (SceneItem × ℤ),
      r = bb0 ++ levelFilter .backgroundAndBorders L ++ S1.map Prod.fst ++
          levelFilter .blockBackgroundAndBorders L ++ levelFilter .floats L ++
          levelFilter .content L ++ S2.map Prod.fst ++
          levelFilter .outlines L ∧
      (∀ p ∈ S1, p.2 < 0) ∧
      (∀ p ∈ S2, 0 ≤ p.2) ∧
      List.Sorted zLe S1 ∧
      List.Sorted zLe S2 ∧
      (S1 ++ S2).Perm P ∧
      (∀ v : ℤ, (S1 ++ S2).filter (fun p => decide (p.2 = v)) =
        P.filter (fun p => decide (p.2 = v))) ∧
      (∀ p ∈ P, zIndexOf scene p.1 = some p.2) ∧
      P.map Prod.fst = levelFilter .positionedContent L ∧
      (∀ pl : ScenePipeline, kind = .pipeline pl →
        bb0 = (match pl.background_draw_list with
               | some dlid =>
                   [⟨StackingLevel.backgroundAndBorders,
                     SpecificSceneItem.drawList dlid⟩]
               | none => [])) := by
  have hB := bucketDisplayLists_eq scene sc.display_lists L hL
    { Buckets.empty with background_and_borders := bb0 }
  rw [bucketItems_spec scene L P hP] at hB
  simp only [collect_scene_items, hk, hB] at hr
  simp only [Buckets.empty, List.nil_append, Option.some_inj] at hr
  refine ⟨(List.insertionSort zLe P).filter (fun p => decide (p.2 < 0)),
          (List.insertionSort zLe P).filter (fun p => !decide (p.2 < 0)),
          ?_, ?_, ?_, ?_, ?_, ?_, ?_, ?_, ?_, ?_⟩
  · rw [← hr]
  · intro p hp
    have := List.of_mem_filter hp
    simpa using this
  · intro p hp
    have := List.of_mem_filter hp
    simp only [Bool.not_eq_true', decide_eq_false_iff_not, not_lt] at this
    exact this
  · exact (List.sorted_insertionSort zLe P).filter _
  · exact (List.sorted_insertionSort zLe P).filter _
  · exact (List.filter_append_perm _ _).trans (List.perm_insertionSort zLe P)
  · intro v
    rw [List.filter_append, filter_split_key, filter_insertionSort_key]
  · exact weightedPositioned_z scene L P hP
  · exact weightedPositioned_map_fst scene L P hP
  · intro pl hkind
    subst hkind
    simp only [kindStackingContext] at hk
    cases hlu : lookupA scene.stacking_context_map pl.root_stacking_context_id with
    | none => rw [hlu] at hk; cases hk
    | some root =>
      rw [hlu] at hk
      simp only [Option.some_inj, Prod.mk.injEq] at hk
      exact hk.1.symm

/-- Witness data for `collect_scene_items_spec`: a stacking context with
interleaved positioned children of z-indices 2, 0 and −1. -/
def c2mk (z : ℤ) : StackingContext :=
  { bounds := ⟨⟨0, 0⟩, ⟨10, 10⟩⟩, overflow := ⟨⟨0, 0⟩, ⟨10, 10⟩⟩,
    transform := Matrix4.identity, perspective := Matrix4.identity,
    mix_blend_mode := .normal, filters := [],
    scroll_policy := .scrollable, scroll_layer_id := none,
    establishes_3d_context := false, has_stacking_contexts := false,
    z_index := z, display_lists := [] }

def c2root : StackingContext := { c2mk 0 with display_lists := [0] }

def c2scene : Scene :=
  { root_pipeline_id := none, pipeline_map := [],
    stacking_context_map := [(20, ⟨c2mk 2⟩), (21, ⟨c2mk (-1)⟩)],
    display_list_map :=
      [(0, ⟨[⟨.content, .drawList 1⟩,
             ⟨.positionedContent, .stackingContext 20⟩,
             ⟨.positionedContent, .drawList 2⟩,
             ⟨.positionedContent, .stackingContext 21⟩,
             ⟨.outlines, .drawList 3⟩]⟩)] }

def c2items : List SceneItem :=
  [⟨.content, .drawList 1⟩,
   ⟨.positionedContent, .stackingContext 20⟩,
   ⟨.positionedContent, .drawList 2⟩,
   ⟨.positionedContent, .stackingContext 21⟩,
   ⟨.outlines, .drawList 3⟩]

def c2weighted : List (SceneItem × ℤ) :=
  [(⟨.positionedContent, .stackingContext 20⟩, 2),
   (⟨.positionedContent, .drawList 2⟩, 0),
   (⟨.positionedContent, .stackingContext 21⟩, -1)]

def c2result : List SceneItem :=
  [⟨.positionedContent, .stackingContext 21⟩,
   ⟨.content, .drawList 1⟩,
   ⟨.positionedContent, .drawList 2⟩,
   ⟨.positionedContent, .stackingContext 20⟩,
   ⟨.outlines, .drawList 3⟩]

theorem collect_scene_items_spec_witness :
    ∃ S1 S2 : List (SceneItem × ℤ),
      c2result = [] ++ levelFilter .backgroundAndBorders c2items ++
          S1.map Prod.fst ++
          levelFilter .blockBackgroundAndBorders c2items ++
          levelFilter .floats c2items ++ levelFilter .content c2items ++
          S2.map Prod.fst ++ levelFilter .outlines c2items ∧
      (∀ p ∈ S1, p.2 < 0) ∧
      (∀ p ∈ S2, 0 ≤ p.2) ∧
      List.Sorted zLe S1 ∧
      List.Sorted zLe S2 ∧
      (S1 ++ S2).Perm c2weighted ∧
      (∀ v : ℤ, (S1 ++ S2).filter (fun p => decide (p.2 = v)) =
        c2weighted.filter (fun p => decide (p.2 = v))) ∧
      (∀ p ∈ c2weighted, zIndexOf c2scene p.1 = some p.2) ∧
      c2weighted.map Prod.fst = levelFilter .positionedContent c2items ∧
      (∀ pl : ScenePipeline, SceneItemKind.stackingContext ⟨c2root⟩ = .pipeline pl →
        [] = (match pl.background_draw_list with
              | some dlid =>
                  [⟨StackingLevel.backgroundAndBorders,
                    SpecificSceneItem.drawList dlid⟩]
              | none => ([] : List SceneItem))) :=
  collect_scene_items_spec c2scene (.stackingContext ⟨c2root⟩) [] c2root
    c2items c2weighted c2result (by decide) (by decide) (by decide) (by decide)

theorem items_push_draw_list_group (rt : RenderTarget) (g : Nat) :
    (rt.push_draw_list_group g).items = rt.items ++ [.drawListBatch g] := by
  cases rt
  rfl

theorem items_push_clear (rt : RenderTarget) (i : ClearInfo) :
    (rt.push_clear i).items = rt.items ++ [.clear i] := by
  cases rt
  rfl

/-- The claim's size invariant over the group state carried during
flattening: every flushed group and the open group are within
`MAX_MATRICES_PER_BATCH`. -/
def stateGroupsOk (st : FlattenState) : Prop :=
  (∀ p ∈ st.draw_list_groups, p.2.draw_list_ids.length ≤ MAX_MATRICES_PER_BATCH) ∧
  (∀ g ∈ st.current_draw_list_group.toList,
    g.draw_list_ids.length ≤ MAX_MATRICES_PER_BATCH)

instance (st : FlattenState) : Decidable (stateGroupsOk st) :=
  inferInstanceAs (Decidable (_ ∧ _))

/-- `stateGroupsOk` over the result of a flatten-step, vacuously true on a
panic/fuel-exhaustion result. -/
def groupsOkOpt : Option (FlattenState × RenderTarget) → Prop
  | none => True
  | some res => stateGroupsOk res.1

/-- The admission/closing behaviour of the `DrawList` arm: when the open
group admits the pair the id is pushed into it and the flushed groups are
untouched; otherwise (no open group, or `can_add` fails) the open group is
flushed to `draw_list_groups`, a fresh group keyed by the current scroll
layer and render target starts with exactly this draw list, and a
`DrawListBatch` item is pushed onto the target. -/
def processStepOk (dlid : Nat) (info : FlattenInfo) (st : FlattenState)
    (target : RenderTarget) : Option (FlattenState × RenderTarget) → Prop
  | none => True
  | some res =>
      match st.current_draw_list_group with
      | some g =>
          if g.can_add info.actual_scroll_layer_id target.id then
            res.1.current_draw_list_group = some (g.push dlid) ∧
            res.1.draw_list_groups = st.draw_list_groups ∧
            res.1.next_draw_list_group_id = st.next_draw_list_group_id ∧
            res.2 = target
          else
            res.1.current_draw_list_group =
              some ((DrawListGroup.new st.next_draw_list_group_id
                info.actual_scroll_layer_id target.id).push dlid) ∧
            res.1.draw_list_groups = insertA st.draw_list_groups g.id g ∧
            res.1.next_draw_list_group_id = st.next_draw_list_group_id + 1 ∧
            res.2 = target.push_draw_list_group st.next_draw_list_group_id
      | none =>
          res.1.current_draw_list_group =
            some ((DrawListGroup.new st.next_draw_list_group_id
              info.actual_scroll_layer_id target.id).push dlid) ∧
          res.1.draw_list_groups = st.draw_list_groups ∧
          res.1.next_draw_list_group_id = st.next_draw_list_group_id + 1 ∧
          res.2 = target.push_draw_list_group st.next_draw_list_group_id

theorem processDrawList_step (scIndex dlid : Nat) (info : FlattenInfo)
    (st : FlattenState) (target : RenderTarget) :
    processStepOk dlid info st target
      (processDrawList scIndex dlid info st target) := by
  cases hlu : lookupA st.cache.draw_lists dlid with
  | none => simp [processDrawList, hlu, processStepOk]
  | some dl =>
    cases hcur : st.current_draw_list_group with
    | none =>
      simp only [processDrawList, hlu, hcur]
      cases hlay : lookupA st.layers info.actual_scroll_layer_id with
      | none => simp [processStepOk, hlay]
      | some layer =>
        simp [processStepOk, hlay, hcur, items_push_draw_list_group,
          DrawListGroup.new, DrawListGroup.push]
    | some g =>
      by_cases hca : g.can_add info.actual_scroll_layer_id target.id
      · simp only [processDrawList, hlu, hcur, hca, Bool.not_true, if_neg,
          Bool.false_eq_true, not_false_eq_true]
        cases hlay : lookupA st.layers info.actual_scroll_layer_id with
        | none => simp [processStepOk, hlay]
        | some layer =>
          simp [processStepOk, hlay, hcur, hca, DrawListGroup.push]
      · have hca' : (!g.can_add info.actual_scroll_layer_id target.id) = true := by
          simp [hca]
        simp only [processDrawList, hlu, hcur, hca', if_pos]
        cases hlay : lookupA st.layers info.actual_scroll_layer_id with
        | none => simp [processStepOk, hlay]
        | some layer =>
          simp [processStepOk, hlay, hcur, hca, items_push_draw_list_group,
            DrawListGroup.new, DrawListGroup.push]

theorem processDrawList_groupsOk (scIndex dlid : Nat) (info : FlattenInfo)
    (st : FlattenState) (target : RenderTarget) (h : stateGroupsOk st) :
    groupsOkOpt (processDrawList scIndex dlid info st target) := by
  have hstep := processDrawList_step scIndex dlid info st target
  cases hres : processDrawList scIndex dlid info st target with
  | none => simp [groupsOkOpt]
  | some res =>
    rw [hres] at hstep
    simp only [processStepOk] at hstep
    simp only [groupsOkOpt]
    cases hcur : st.current_draw_list_group with
    | none =>
      simp only [hcur] at hstep
      obtain ⟨hc, hg, _, _⟩ := hstep
      constructor
      · rw [hg]
        exact h.1
      · intro g hgmem
        rw [hc] at hgmem
        simp only [Option.toList, List.mem_singleton] at hgmem
        subst hgmem
        simp [DrawListGroup.new, DrawListGroup.push, MAX_MATRICES_PER_BATCH]
    | some g =>
      simp only [hcur] at hstep
      by_cases hca : g.can_add info.actual_scroll_layer_id target.id
      · rw [if_pos hca] at hstep
        obtain ⟨hc, hg, _, _⟩ := hstep
        have hlen : g.draw_list_ids.length < MAX_MATRICES_PER_BATCH := by
          simp only [DrawListGroup.can_add, Bool.and_eq_true, decide_eq_true_eq] at hca
          exact hca.2
        constructor
        · rw [hg]
          exact h.1
        · intro g' hgmem
          rw [hc] at hgmem
          simp only [Option.toList, List.mem_singleton] at hgmem
          subst hgmem
          simp only [DrawListGroup.push, List.length_append, List.length_singleton]
          omega
      · rw [if_neg hca] at hstep
        obtain ⟨hc, hg, _, _⟩ := hstep
        have hgok : g.draw_list_ids.length ≤ MAX_MATRICES_PER_BATCH := by
          apply h.2
          simp [hcur, Option.toList]
        constructor
        · rw [hg]
          intro p hp
          rcases mem_insertA hp with rfl | hp
          · exact hgok
          · exact h.1 p hp
        · intro g' hgmem
          rw [hc] at hgmem
          simp only [Option.toList, List.mem_singleton] at hgmem
          subst hgmem
          simp [DrawListGroup.new, DrawListGroup.push, MAX_MATRICES_PER_BATCH]

theorem flattenKindSetup_groups (scene : Scene) (kind : SceneItemKind)
    (st : FlattenState) :
    ∀ res, flattenKindSetup scene kind st = some res →
      res.1.draw_list_groups = st.draw_list_groups ∧
      res.1.current_draw_list_group = st.current_draw_list_group := by
  intro res h
  cases kind with
  | stackingContext ssc =>
    simp only [flattenKindSetup, Option.some_inj] at h
    subst h
    exact ⟨rfl, rfl⟩
  | pipeline p =>
    simp only [flattenKindSetup] at h
    cases hlu : lookupA scene.stacking_context_map p.root_stacking_context_id with
    | none => rw [hlu] at h; cases h
    | some root =>
      rw [hlu] at h
      simp only [Option.some_inj] at h
      subst h
      exact ⟨rfl, rfl⟩

theorem setupScrollPolicy_groups (sc : StackingContext)
    (parent_info info : FlattenInfo) (transform : Matrix4) (st : FlattenState) :
    ∀ res, setupScrollPolicy sc parent_info info transform st = some res →
      res.2.draw_list_groups = st.draw_list_groups ∧
      res.2.current_draw_list_group = st.current_draw_list_group := by
  intro res h
  cases hpol : sc.scroll_policy with
  | fixedPolicy =>
    cases hsl : sc.scroll_layer_id <;>
      · simp only [setupScrollPolicy, hpol, hsl, Option.some_inj] at h
        subst h
        exact ⟨rfl, rfl⟩
  | scrollable =>
    cases hsl : sc.scroll_layer_id with
    | none =>
      simp only [setupScrollPolicy, hpol, hsl, Option.some_inj] at h
      subst h
      exact ⟨rfl, rfl⟩
    | some slid =>
      simp only [setupScrollPolicy, hpol, hsl] at h
      by_cases heq : parent_info.actual_scroll_layer_id = slid
      · rw [if_pos heq] at h
        simp only [Option.some_inj] at h
        subst h
        exact ⟨rfl, rfl⟩
      · rw [if_neg heq] at h
        cases hlu : lookupA st.layers parent_info.actual_scroll_layer_id with
        | none => rw [hlu] at h; cases h
        | some parent_layer =>
          rw [hlu] at h
          simp only [Option.some_inj] at h
          subst h
          exact ⟨rfl, rfl⟩

theorem pushStackingContextInfo_groupsOk (info : FlattenInfo)
    (st : FlattenState) (h : stateGroupsOk st) :
    stateGroupsOk (pushStackingContextInfo info st) := h

/-- Size-invariant preservation along every flatten step and every item
step, jointly by induction on the fuel. -/
theorem groupsOk_main (scene : Scene) :
    ∀ fuel : Nat,
      (∀ (kind : SceneItemKind) (info : FlattenInfo) (st : FlattenState)
        (target : RenderTarget), stateGroupsOk st →
        groupsOkOpt (flatten scene fuel kind info st target)) ∧
      (∀ (scIndex : Nat) (items : List SceneItem) (info : FlattenInfo)
        (st : FlattenState) (target : RenderTarget), stateGroupsOk st →
        groupsOkOpt (itemsLoop scene fuel scIndex items info st target)) := by
  intro fuel
  induction fuel with
  | zero =>
    constructor
    · intro kind info st target _
      simp [flatten, groupsOkOpt]
    · intro scIndex items info st target _
      simp [itemsLoop, groupsOkOpt]
  | succ fuel ih =>
    obtain ⟨ihf, ihl⟩ := ih
    have keyl : ∀ (scIndex : Nat) (items : List SceneItem) (I : FlattenInfo)
        (S : FlattenState) (T : RenderTarget) r, stateGroupsOk S →
        itemsLoop scene fuel scIndex items I S T = some r →
        stateGroupsOk r.1 := by
      intro scIndex items I S T r hS heq
      have hx := ihl scIndex items I S T hS
      rw [heq] at hx
      simpa [groupsOkOpt] using hx
    have keyf : ∀ (k : SceneItemKind) (I : FlattenInfo) (S : FlattenState)
        (T : RenderTarget) r, stateGroupsOk S →
        flatten scene fuel k I S T = some r → stateGroupsOk r.1 := by
      intro k I S T r hS heq
      have hx := ihf k I S T hS
      rw [heq] at hx
      simpa [groupsOkOpt] using hx
    constructor
    · intro kind info st target h
      simp only [flatten]
      split
      · simp [groupsOkOpt]
      · rename_i st1 stacking_context hks
        have h1 : stateGroupsOk st1 := by
          obtain ⟨hg, hc⟩ := flattenKindSetup_groups scene kind st _ hks
          exact ⟨hg ▸ h.1, hc ▸ h.2⟩
        split
        · simpa [groupsOkOpt] using h1
        · rename_i local_clip_rect hclip
          split
          · simp [groupsOkOpt]
          · rename_i scene_items hcoll
            split
            · simpa [groupsOkOpt] using h1
            · split
              · simp [groupsOkOpt]
              · rename_i info2 st2 hpol
                have h2 : stateGroupsOk st2 := by
                  obtain ⟨hg2, hc2⟩ := setupScrollPolicy_groups _ _ _ _ _ _ hpol
                  exact ⟨hg2 ▸ h1.1, hc2 ▸ h1.2⟩
                split
                · exact ihl _ _ _ _ _
                    (pushStackingContextInfo_groupsOk info2 st2 h2)
                · split
                  · simp [groupsOkOpt]
                  · rename_i st4 new_target hadd
                    have h3 : stateGroupsOk
                        { st2 with
                            next_render_target_id :=
                              st2.next_render_target_id + 1 } := h2
                    simpa [groupsOkOpt] using
                      keyl _ _ _ _ _ _
                        (pushStackingContextInfo_groupsOk _ _ h3) hadd
    · intro scIndex items info st target h
      simp only [itemsLoop]
      split
      · simpa [groupsOkOpt] using h
      · rename_i item rest
        split
        · simp [groupsOkOpt]
        · rename_i st' target' heq
          have hp1 : stateGroupsOk st' := by
            revert heq
            split
            · rename_i dlid hspec
              intro heq
              have hstep := processDrawList_groupsOk scIndex dlid info st target h
              rw [heq] at hstep
              simpa [groupsOkOpt] using hstep
            · rename_i id hspec
              split
              · intro heq
                cases heq
              · rename_i ssc hssc
                intro heq
                refine keyf _ _ _ _ _ ?_ heq
                exact h
            · rename_i iframe_info hspec
              split
              · intro heq
                cases heq
                exact h
              · rename_i pipeline hpl
                intro heq
                refine keyf _ _ _ _ _ ?_ heq
                exact h
          exact ihl scIndex rest info st' target' hp1

theorem flatten_groupsOk (scene : Scene) :
    ∀ (fuel : Nat) (kind : SceneItemKind) (info : FlattenInfo)
      (st : FlattenState) (target : RenderTarget), stateGroupsOk st →
      groupsOkOpt (flatten scene fuel kind info st target) :=
  fun fuel => (groupsOk_main scene fuel).1

theorem create_groupsOk (f : Frame) (scene : Scene) (cache : ResourceCache)
    (ps : List (Nat × Size2)) (vp : Size2) (fuel : Nat)
    (res : Frame × ResourceCache × List (Nat × Size2))
    (hpre : ∀ p ∈ f.draw_list_groups,
      p.2.draw_list_ids.length ≤ MAX_MATRICES_PER_BATCH)
    (hcr : Frame.create f scene cache ps vp fuel = some res) :
    ∀ p ∈ res.1.draw_list_groups,
      p.2.draw_list_ids.length ≤ MAX_MATRICES_PER_BATCH := by
  unfold Frame.create at hcr
  split at hcr
  · cases hcr
    exact hpre
  · split at hcr
    · cases hcr
      exact hpre
    · split at hcr
      · cases hcr
      · split at hcr
        · cases hcr
        · simp only [Frame.reset] at hcr
          split at hcr
          · cases hcr
          · rename_i st' root_target' hflat
            have key : ∀ (k : SceneItemKind) (I : FlattenInfo) (S : FlattenState)
                (T : RenderTarget) r, stateGroupsOk S →
                flatten scene fuel k I S T = some r → stateGroupsOk r.1 := by
              intro k I S T r hS heq
              have hx := flatten_groupsOk scene fuel k I S T hS
              rw [heq] at hx
              simpa [groupsOkOpt] using hx
            have hfo := key _ _ _ _ _
              (by
                refine ⟨?_, ?_⟩
                · intro p hp
                  simp at hp
                · intro g hg
                  simp at hg)
              hflat
            revert hcr
            split
            · rename_i g hcur
              intro hcr
              cases hcr
              intro p hp
              rcases mem_insertA hp with rfl | hp
              · exact hfo.2 g (by simp [hcur, Option.toList])
              · exact hfo.1 p hp
            · rename_i hcur
              intro hcr
              cases hcr
              intro p hp
              exact hfo.1 p hp

/-- C1: `can_add` admits a draw list exactly when the scroll layer and
render target match the group's and the group is strictly below
`MAX_MATRICES_PER_BATCH`; the `DrawList` arm either pushes into the open
group or closes it and starts a fresh one keyed by the current pair
(`processStepOk`); the size bound holds across every flatten step
(`groupsOkOpt`) and for every group in `draw_list_groups` after `create`. -/
theorem draw_list_group_invariant :
    (∀ (g : DrawListGroup) (slid : ScrollLayerId) (rtid : Nat),
      g.can_add slid rtid = true ↔
        (slid = g.scroll_layer_id ∧ rtid = g.render_target_id ∧
         g.draw_list_ids.length < MAX_MATRICES_PER_BATCH)) ∧
    (∀ (scIndex dlid : Nat) (info : FlattenInfo) (st : FlattenState)
      (target : RenderTarget),
      processStepOk dlid info st target
        (processDrawList scIndex dlid info st target)) ∧
    (∀ (scene : Scene) (fuel : Nat) (kind : SceneItemKind)
      (info : FlattenInfo) (st : FlattenState) (target : RenderTarget),
      stateGroupsOk st → groupsOkOpt (flatten scene fuel kind info st target)) ∧
    (∀ (f : Frame) (scene : Scene) (cache : ResourceCache)
      (ps : List (Nat × Size2)) (vp : Size2) (fuel : Nat)
      (res : Frame × ResourceCache × List (Nat × Size2)),
      (∀ p ∈ f.draw_list_groups,
        p.2.draw_list_ids.length ≤ MAX_MATRICES_PER_BATCH) →
      Frame.create f scene cache ps vp fuel = some res →
      ∀ p ∈ res.1.draw_list_groups,
        p.2.draw_list_ids.length ≤ MAX_MATRICES_PER_BATCH) := by
  refine ⟨?_, processDrawList_step, flatten_groupsOk, create_groupsOk⟩
  intro g slid rtid
  simp [DrawListGroup.can_add, and_assoc]

/-- Witness scene for the claims that exercise `create`: one pipeline, one
scrollable root stacking context, one display list referencing one stored
draw list. -/
def w1sc : StackingContext :=
  { bounds := ⟨⟨0, 0⟩, ⟨800, 600⟩⟩, overflow := ⟨⟨0, 0⟩, ⟨800, 600⟩⟩,
    transform := Matrix4.identity, perspective := Matrix4.identity,
    mix_blend_mode := .normal, filters := [],
    scroll_policy := .scrollable, scroll_layer_id := some (.normal 0),
    establishes_3d_context := false, has_stacking_contexts := false,
    z_index := 0, display_lists := [0] }

def w1scene : Scene :=
  { root_pipeline_id := some 1,
    pipeline_map := [(1, ⟨1, 7, none, 0⟩)],
    stacking_context_map := [(0, ⟨w1sc⟩)],
    display_list_map := [(0, ⟨[⟨.content, .drawList 5⟩]⟩)] }

def w1cache : ResourceCache := ⟨[(5, ⟨[⟨⟨⟨10, 10⟩, ⟨100, 100⟩⟩⟩], none⟩)]⟩

theorem draw_list_group_invariant_witness :
    ((⟨3, .normal 0, 0, [5]⟩ : DrawListGroup).can_add (.normal 0) 0 = true ↔
      (ScrollLayerId.normal 0 = ScrollLayerId.normal 0 ∧ (0 : Nat) = 0 ∧
        ([5] : List Nat).length < MAX_MATRICES_PER_BATCH)) ∧
    (∀ p ∈ ((Frame.create Frame.new w1scene w1cache [] ⟨800, 600⟩ 9).getD
        (Frame.new, w1cache, [])).1.draw_list_groups,
      p.2.draw_list_ids.length ≤ MAX_MATRICES_PER_BATCH) :=
  ⟨draw_list_group_invariant.1 ⟨3, .normal 0, 0, [5]⟩ (.normal 0) 0,
   draw_list_group_invariant.2.2.2 Frame.new w1scene w1cache [] ⟨800, 600⟩ 9
     ((Frame.create Frame.new w1scene w1cache [] ⟨800, 600⟩ 9).getD
       (Frame.new, w1cache, []))
     (by intro p hp; cases hp) (by with_unfolding_all rfl)⟩

theorem flattenKindSetup_fields (scene : Scene) (kind : SceneItemKind)
    (st : FlattenState) :
    ∀ res, flattenKindSetup scene kind st = some res →
      res.1.layers = st.layers ∧
      res.1.stacking_context_info = st.stacking_context_info ∧
      res.1.draw_list_groups = st.draw_list_groups ∧
      res.1.current_draw_list_group = st.current_draw_list_group := by
  intro res h
  cases kind with
  | stackingContext ssc =>
    simp only [flattenKindSetup, Option.some_inj] at h
    subst h
    exact ⟨rfl, rfl, rfl, rfl⟩
  | pipeline p =>
    simp only [flattenKindSetup] at h
    cases hlu : lookupA scene.stacking_context_map p.root_stacking_context_id with
    | none => rw [hlu] at h; cases h
    | some root =>
      rw [hlu] at h
      simp only [Option.some_inj] at h
      subst h
      exact ⟨rfl, rfl, rfl, rfl⟩

/-- C8: a stacking context whose `local_clip_rect` is empty, or whose
collected item list is empty, is pruned: `flatten` returns with the target
untouched (no items, clears, composite batches or child targets) and the
state unchanged except for a pipeline's epoch entry — so no layer, no
stacking-context info, and no draw-list-group changes come from it or any
descendant (none are visited). -/
theorem flatten_prune_spec (scene : Scene) (fuel : Nat) (kind : SceneItemKind)
    (parent_info : FlattenInfo) (st st1 : FlattenState)
    (stacking_context : StackingContext) (target : RenderTarget)
    (hks : flattenKindSetup scene kind st = some (st1, stacking_context)) :
    ((parent_info.current_clip_rect.translate
        stacking_context.bounds.origin.neg).intersection
        stacking_context.overflow = none →
      flatten scene (fuel + 1) kind parent_info st target = some (st1, target)) ∧
    (collect_scene_items scene kind = some [] →
      flatten scene (fuel + 1) kind parent_info st target = some (st1, target)) ∧
    (st1.layers = st.layers ∧
     st1.stacking_context_info = st.stacking_context_info ∧
     st1.draw_list_groups = st.draw_list_groups ∧
     st1.current_draw_list_group = st.current_draw_list_group) := by
  refine ⟨?_, ?_, flattenKindSetup_fields scene kind st _ hks⟩
  · intro hclip
    simp only [flatten, hks, hclip]
  · intro hcoll
    simp only [flatten, hks, hcoll]
    cases hclip : (parent_info.current_clip_rect.translate
        stacking_context.bounds.origin.neg).intersection
        stacking_context.overflow <;> simp [hclip]

/-- Witness data for `flatten_prune_spec`: a stacking context whose overflow
misses the incoming clip, and one with no display lists. -/
def c8far : StackingContext :=
  { c2mk 0 with overflow := ⟨⟨0, 0⟩, ⟨10, 10⟩⟩ }

def c8info : FlattenInfo :=
  { viewport_size := ⟨800, 600⟩,
    current_clip_rect := ⟨⟨50, 50⟩, ⟨10, 10⟩⟩,
    default_scroll_layer_id := .normal 0,
    actual_scroll_layer_id := .normal 0,
    offset_from_origin := ⟨0, 0⟩,
    offset_from_current_layer := ⟨0, 0⟩,
    transform := Matrix4.identity,
    perspective := Matrix4.identity }

def c8st : FlattenState :=
  ⟨[], [], [], 0, 0, [], none, ⟨[]⟩, []⟩

theorem flatten_prune_spec_witness :
    (flatten c2scene 4 (.stackingContext ⟨c8far⟩) c8info c8st
        (RenderTarget.new 0 ⟨800, 600⟩) =
      some (c8st, RenderTarget.new 0 ⟨800, 600⟩)) ∧
    (flatten c2scene 4 (.stackingContext ⟨c2mk 0⟩)
        { c8info with current_clip_rect := ⟨⟨0, 0⟩, ⟨10, 10⟩⟩ } c8st
        (RenderTarget.new 0 ⟨800, 600⟩) =
      some (c8st, RenderTarget.new 0 ⟨800, 600⟩)) :=
  ⟨(flatten_prune_spec c2scene 3 (.stackingContext ⟨c8far⟩) c8info c8st c8st
      c8far (RenderTarget.new 0 ⟨800, 600⟩) rfl).1
      (by with_unfolding_all rfl),
   (flatten_prune_spec c2scene 3 (.stackingContext ⟨c2mk 0⟩)
      { c8info with current_clip_rect := ⟨⟨0, 0⟩, ⟨10, 10⟩⟩ } c8st c8st
      (c2mk 0) (RenderTarget.new 0 ⟨800, 600⟩) rfl).2.1
      (by with_unfolding_all rfl)⟩

/-- Scene with a root pipeline id that resolves to no pipeline. -/
def c5scene : Scene :=
  { root_pipeline_id := some 7, pipeline_map := [],
    stacking_context_map := [], display_list_map := [] }

/-- Scene whose root pipeline exists but references a missing root stacking
context. -/
def c5scene2 : Scene :=
  { root_pipeline_id := some 7, pipeline_map := [(7, ⟨7, 1, none, 3⟩)],
    stacking_context_map := [], display_list_map := [] }

/-- A frame carrying state from a previous build. -/
def c5frame : Frame :=
  { Frame.new with
      stacking_context_info :=
        [⟨⟨0, 0⟩, MAX_RECT, Matrix4.identity, Matrix4.identity⟩] }

/-- Counterexample to C5 as stated: with an unknown root pipeline, `create`
does not abort — it returns normally and leaves the frame exactly as it
was (here with non-empty stacking-context info), performing not even the
reset. -/
theorem create_missing_pipeline_no_abort :
    Frame.create c5frame c5scene ⟨[]⟩ [] ⟨800, 600⟩ 5 =
      some (c5frame, ⟨[]⟩, []) ∧
    c5frame.stacking_context_info ≠ [] := by
  constructor
  · rfl
  · decide

/-- C5 (amended): a missing root pipeline id or an unknown root pipeline
makes `create` return with the frame untouched (no reset, no build); a
missing *root stacking context* aborts (panic); a nested iframe whose
pipeline is missing is silently skipped — the item loop continues on the
unchanged state except for the pipeline-size map entry, so the iframe
contributes no layers, items or groups. -/
theorem missing_reference_spec :
    (∀ (f : Frame) (scene : Scene) (cache : ResourceCache)
      (ps : List (Nat × Size2)) (vp : Size2) (fuel : Nat),
      scene.root_pipeline_id = none →
      Frame.create f scene cache ps vp fuel = some (f, cache, ps)) ∧
    (∀ (f : Frame) (scene : Scene) (cache : ResourceCache)
      (ps : List (Nat × Size2)) (vp : Size2) (fuel : Nat) (pid : Nat),
      scene.root_pipeline_id = some pid →
      lookupA scene.pipeline_map pid = none →
      Frame.create f scene cache ps vp fuel = some (f, cache, ps)) ∧
    (∀ (f : Frame) (scene : Scene) (cache : ResourceCache)
      (ps : List (Nat × Size2)) (vp : Size2) (fuel : Nat) (pid : Nat)
      (pl : ScenePipeline),
      scene.root_pipeline_id = some pid →
      lookupA scene.pipeline_map pid = some pl →
      lookupA scene.stacking_context_map pl.root_stacking_context_id = none →
      Frame.create f scene cache ps vp fuel = none) ∧
    (∀ (scene : Scene) (fuel scIndex : Nat) (item : SceneItem)
      (rest : List SceneItem) (info : FlattenInfo) (st : FlattenState)
      (target : RenderTarget) (iframe_info : IframeInfo),
      item.specific = .iframe iframe_info →
      lookupA scene.pipeline_map iframe_info.id = none →
      itemsLoop scene (fuel + 1) scIndex (item :: rest) info st target =
        itemsLoop scene fuel scIndex rest info
          { st with pipeline_sizes := insertA st.pipeline_sizes iframe_info.id iframe_info.bounds.size }
          target) := by
  refine ⟨?_, ?_, ?_, ?_⟩
  · intro f scene cache ps vp fuel h
    simp only [Frame.create, h]
  · intro f scene cache ps vp fuel pid h1 h2
    simp only [Frame.create, h1, h2]
  · intro f scene cache ps vp fuel pid pl h1 h2 h3
    simp only [Frame.create, h1, h2, h3]
  · intro scene fuel scIndex item rest info st target iframe_info hspec hpl
    simp only [itemsLoop, hspec, hpl]

theorem missing_reference_spec_witness :
    (Frame.create c5frame { c5scene with root_pipeline_id := none } ⟨[]⟩ []
        ⟨800, 600⟩ 5 = some (c5frame, ⟨[]⟩, [])) ∧
    (Frame.create c5frame c5scene ⟨[]⟩ [] ⟨800, 600⟩ 5 =
      some (c5frame, ⟨[]⟩, [])) ∧
    (Frame.create c5frame c5scene2 ⟨[]⟩ [] ⟨800, 600⟩ 5 = none) ∧
    (itemsLoop c5scene 4 0 [⟨.content, .iframe ⟨9, ⟨⟨0, 0⟩, ⟨4, 4⟩⟩⟩⟩] c8info
        c8st (RenderTarget.new 0 ⟨800, 600⟩) =
      itemsLoop c5scene 3 0 [] c8info
        { c8st with pipeline_sizes := insertA c8st.pipeline_sizes 9 ⟨4, 4⟩ }
        (RenderTarget.new 0 ⟨800, 600⟩)) :=
  ⟨missing_reference_spec.1 c5frame _ ⟨[]⟩ [] ⟨800, 600⟩ 5 rfl,
   missing_reference_spec.2.1 c5frame c5scene ⟨[]⟩ [] ⟨800, 600⟩ 5 7 rfl rfl,
   missing_reference_spec.2.2.1 c5frame c5scene2 ⟨[]⟩ [] ⟨800, 600⟩ 5 7
     ⟨7, 1, none, 3⟩ rfl rfl rfl,
   missing_reference_spec.2.2.2 c5scene 3 0 ⟨.content, .iframe ⟨9, ⟨⟨0, 0⟩, ⟨4, 4⟩⟩⟩⟩
     [] c8info c8st (RenderTarget.new 0 ⟨800, 600⟩) ⟨9, ⟨⟨0, 0⟩, ⟨4, 4⟩⟩⟩ rfl rfl⟩

mutual

/-- No texture is held anywhere in a render-target tree. -/
def RenderTarget.texFree : RenderTarget → Bool
  | .mk _ children _ child_texture_id _ =>
      child_texture_id.isNone && texFreeList children

def texFreeList : List RenderTarget → Bool
  | [] => true
  | t :: ts => t.texFree && texFreeList ts

end

theorem texFreeList_append (l1 l2 : List RenderTarget) :
    texFreeList (l1 ++ l2) = (texFreeList l1 && texFreeList l2) := by
  induction l1 with
  | nil => simp [texFreeList]
  | cons t ts ih => simp [texFreeList, ih, Bool.and_assoc]

theorem texFree_withItems (rt : RenderTarget) (l : List FrameRenderItem) :
    (rt.withItems l).texFree = rt.texFree := by
  cases rt
  simp [RenderTarget.withItems, RenderTarget.texFree]

theorem texFree_push_clear (rt : RenderTarget) (i : ClearInfo) :
    (rt.push_clear i).texFree = rt.texFree := by
  simp [RenderTarget.push_clear, texFree_withItems]

theorem texFree_push_draw_list_group (rt : RenderTarget) (g : Nat) :
    (rt.push_draw_list_group g).texFree = rt.texFree := by
  simp [RenderTarget.push_draw_list_group, texFree_withItems]

theorem texFree_push_composite (rt : RenderTarget) (op : CompositionOp)
    (r : RectI) (idx : Nat) :
    (rt.push_composite op r idx).texFree = rt.texFree := by
  have key : ∀ l : List FrameRenderItem,
      (match l.getLast? with
        | some (FrameRenderItem.compositeBatch batch) =>
            rt.withItems (l.dropLast ++
              [FrameRenderItem.compositeBatch
                (CompositeBatchInfo.mk batch.operation
                  (batch.jobs ++ [CompositeBatchJob.mk r idx]))])
        | _ => rt.withItems l).texFree = rt.texFree := by
    intro l
    cases hl : l.getLast? with
    | none => simp [texFree_withItems]
    | some item => cases item <;> simp [texFree_withItems]
  unfold RenderTarget.push_composite
  exact key _

theorem texFree_pushChild (rt child : RenderTarget) :
    (rt.pushChild child).texFree = (rt.texFree && child.texFree) := by
  cases rt
  simp [RenderTarget.pushChild, RenderTarget.texFree, texFreeList_append,
    texFreeList]
  rw [Bool.and_assoc]

theorem texFree_new (id : Nat) (size : Size2) :
    (RenderTarget.new id size).texFree = true := by
  simp [RenderTarget.new, RenderTarget.texFree, texFreeList, Option.isNone]

theorem texFree_foldl_push_composite (ops : List CompositionOp)
    (r : RectI) (idx : Nat) (rt : RenderTarget) :
    (ops.foldl (fun t op => t.push_composite op r idx) rt).texFree =
      rt.texFree := by
  induction ops generalizing rt with
  | nil => rfl
  | cons op rest ih => simp [List.foldl_cons, ih, texFree_push_composite]

mutual

theorem texFree_resetFrees : ∀ rt : RenderTarget, rt.texFree = true →
    rt.resetFrees = []
  | .mk i c it t s, h => by
      simp only [RenderTarget.texFree, Bool.and_eq_true, Option.isNone_iff_eq_none] at h
      simp only [RenderTarget.resetFrees, h.1]
      simpa using texFreeList_resetFreesList c h.2
termination_by structural rt => rt

theorem texFreeList_resetFreesList : ∀ l : List RenderTarget,
    texFreeList l = true → renderTargetListFrees l = []
  | [], _ => rfl
  | t :: ts, h => by
      simp only [texFreeList, Bool.and_eq_true] at h
      simp only [renderTargetListFrees, texFree_resetFrees t h.1,
        texFreeList_resetFreesList ts h.2, List.append_nil]
termination_by structural l => l

end

/-- The returned render target holds no textures (vacuous on panic). -/
def texOkOpt : Option (FlattenState × RenderTarget) → Prop
  | none => True
  | some res => res.2.texFree = true

theorem processDrawList_texFree (scIndex dlid : Nat) (info : FlattenInfo)
    (st : FlattenState) (target : RenderTarget)
    (h : target.texFree = true) :
    texOkOpt (processDrawList scIndex dlid info st target) := by
  have hstep := processDrawList_step scIndex dlid info st target
  cases hres : processDrawList scIndex dlid info st target with
  | none => simp [texOkOpt]
  | some res =>
    rw [hres] at hstep
    simp only [processStepOk] at hstep
    simp only [texOkOpt]
    cases hcur : st.current_draw_list_group with
    | none =>
      simp only [hcur] at hstep
      rw [hstep.2.2.2, texFree_push_draw_list_group]
      exact h
    | some g =>
      simp only [hcur] at hstep
      by_cases hca : g.can_add info.actual_scroll_layer_id target.id
      · rw [if_pos hca] at hstep
        rw [hstep.2.2.2]
        exact h
      · rw [if_neg hca] at hstep
        rw [hstep.2.2.2, texFree_push_draw_list_group]
        exact h

/-- Through every flatten/item step, a texture-free target tree stays
texture-free: flattening never sets `child_texture_id` (allocation happens
only during batch collection in `build`). -/
theorem texFree_main (scene : Scene) :
    ∀ fuel : Nat,
      (∀ (kind : SceneItemKind) (info : FlattenInfo) (st : FlattenState)
        (target : RenderTarget), target.texFree = true →
        texOkOpt (flatten scene fuel kind info st target)) ∧
      (∀ (scIndex : Nat) (items : List SceneItem) (info : FlattenInfo)
        (st : FlattenState) (target : RenderTarget), target.texFree = true →
        texOkOpt (itemsLoop scene fuel scIndex items info st target)) := by
  intro fuel
  induction fuel with
  | zero =>
    constructor
    · intro kind info st target _
      simp [flatten, texOkOpt]
    · intro scIndex items info st target _
      simp [itemsLoop, texOkOpt]
  | succ fuel ih =>
    obtain ⟨ihf, ihl⟩ := ih
    have keyl : ∀ (scIndex : Nat) (items : List SceneItem) (I : FlattenInfo)
        (S : FlattenState) (T : RenderTarget) r, T.texFree = true →
        itemsLoop scene fuel scIndex items I S T = some r →
        r.2.texFree = true := by
      intro scIndex items I S T r hT heq
      have hx := ihl scIndex items I S T hT
      rw [heq] at hx
      simpa [texOkOpt] using hx
    have keyf : ∀ (k : SceneItemKind) (I : FlattenInfo) (S : FlattenState)
        (T : RenderTarget) r, T.texFree = true →
        flatten scene fuel k I S T = some r → r.2.texFree = true := by
      intro k I S T r hT heq
      have hx := ihf k I S T hT
      rw [heq] at hx
      simpa [texOkOpt] using hx
    constructor
    · intro kind info st target h
      simp only [flatten]
      split
      · simp [texOkOpt]
      · rename_i st1 stacking_context hks
        split
        · simpa [texOkOpt] using h
        · rename_i local_clip_rect hclip
          split
          · simp [texOkOpt]
          · rename_i scene_items hcoll
            split
            · simpa [texOkOpt] using h
            · split
              · simp [texOkOpt]
              · rename_i info2 st2 hpol
                have hT2 : (if stacking_context.establishes_3d_context &&
                      stacking_context.has_stacking_contexts then
                      target.push_clear ⟨false, true, true⟩
                    else target).texFree = true := by
                  split <;> simp [texFree_push_clear, h]
                split
                · exact ihl _ _ _ _ _ hT2
                · split
                  · simp [texOkOpt]
                  · rename_i st4 new_target hadd
                    have hnt : new_target.texFree = true :=
                      keyl _ _ _ _ _ _ (texFree_new _ _) hadd
                    simp only [texOkOpt, texFree_pushChild,
                      texFree_foldl_push_composite, hT2, hnt, Bool.and_self]
    · intro scIndex items info st target h
      simp only [itemsLoop]
      split
      · simpa [texOkOpt] using h
      · rename_i item rest
        split
        · simp [texOkOpt]
        · rename_i st' target' heq
          have ht' : target'.texFree = true := by
            revert heq
            split
            · rename_i dlid hspec
              intro heq
              have hstep := processDrawList_texFree scIndex dlid info st target h
              rw [heq] at hstep
              simpa [texOkOpt] using hstep
            · rename_i id hspec
              split
              · intro heq
                cases heq
              · rename_i ssc hssc
                intro heq
                exact keyf _ _ _ _ _ h heq
            · rename_i iframe_info hspec
              split
              · intro heq
                cases heq
                exact h
              · rename_i pipeline hpl
                intro heq
                exact keyf _ _ _ _ _ h heq
          exact ihl scIndex rest info st' target' ht'

/-- C9: after `create`, a `reset` leaves no layers, no draw-list groups, no
stacking-context info, an empty epoch map and no root target; it returns the
previous scroll offsets keyed by scroll-layer id, and the frees it sends to
the resource cache are exactly the textures still held by the render-target
tree — which, for a frame built by `create` (from a frame that held no
textures), is none at all, matching the zero allocations since. -/
theorem create_reset_spec (f : Frame) (scene : Scene) (cache : ResourceCache)
    (ps : List (Nat × Size2)) (vp : Size2) (fuel : Nat)
    (res : Frame × ResourceCache × List (Nat × Size2))
    (hroot : ∀ rt, f.root = some rt → rt.texFree = true)
    (hcr : Frame.create f scene cache ps vp fuel = some res) :
    (res.1.reset).1.layers = [] ∧
    (res.1.reset).1.draw_list_groups = [] ∧
    (res.1.reset).1.stacking_context_info = [] ∧
    (res.1.reset).1.pipeline_epoch_map = [] ∧
    (res.1.reset).1.root = none ∧
    (res.1.reset).2.1 = res.1.layers.map (fun p => (p.1, p.2.scroll_offset)) ∧
    (∀ rt, res.1.root = some rt →
      (res.1.reset).2.2 = rt.resetFrees ∧ rt.texFree = true ∧
      rt.resetFrees = []) := by
  have htex : ∀ rt, res.1.root = some rt → rt.texFree = true := by
    unfold Frame.create at hcr
    split at hcr
    · cases hcr
      exact hroot
    · split at hcr
      · cases hcr
        exact hroot
      · simp only [Frame.reset] at hcr
        split at hcr
        · cases hcr
        · split at hcr
          · cases hcr
          · split at hcr
            · cases hcr
            · rename_i st' root_target' hflat
              have key : ∀ (k : SceneItemKind) (I : FlattenInfo)
                  (S : FlattenState) (T : RenderTarget) r, T.texFree = true →
                  flatten scene fuel k I S T = some r →
                  r.2.texFree = true := by
                intro k I S T r hT heq
                have hx := (texFree_main scene fuel).1 k I S T hT
                rw [heq] at hx
                simpa [texOkOpt] using hx
              have hrt : root_target'.texFree = true :=
                key _ _ _ _ _ (texFree_new _ _) hflat
              revert hcr
              split
              · intro hcr
                cases hcr
                intro rt h
                simp only [Option.some_inj] at h
                subst h
                exact hrt
              · intro hcr
                cases hcr
                intro rt h
                simp only [Option.some_inj] at h
                subst h
                exact hrt
  refine ⟨rfl, rfl, rfl, rfl, rfl, rfl, ?_⟩
  intro rt hrt
  refine ⟨?_, htex rt hrt, texFree_resetFrees rt (htex rt hrt)⟩
  simp [Frame.reset, hrt]

theorem create_reset_spec_witness :
    ((((Frame.create Frame.new w1scene w1cache [] ⟨800, 600⟩ 9).getD
        (Frame.new, w1cache, [])).1.reset).1.layers = []) ∧
    (∀ rt, ((Frame.create Frame.new w1scene w1cache [] ⟨800, 600⟩ 9).getD
        (Frame.new, w1cache, [])).1.root = some rt →
      ((((Frame.create Frame.new w1scene w1cache [] ⟨800, 600⟩ 9).getD
          (Frame.new, w1cache, [])).1.reset).2.2 = rt.resetFrees ∧
        rt.texFree = true ∧ rt.resetFrees = [])) := by
  have h := create_reset_spec Frame.new w1scene w1cache [] ⟨800, 600⟩ 9
    ((Frame.create Frame.new w1scene w1cache [] ⟨800, 600⟩ 9).getD
      (Frame.new, w1cache, []))
    (by intro rt h; cases h) (by with_unfolding_all rfl)
  exact ⟨h.1, h.2.2.2.2.2.2⟩

theorem get_scroll_layer_not_fixed (f : Frame) :
    ∀ (fuel : Nat) (cursor : Point2) (slid : ScrollLayerId) (pT : Matrix4)
      (r : ScrollLayerId), f.get_scroll_layer fuel cursor slid pT = some r →
      r ≠ ScrollLayerId.fixedLayer ∧ (lookupA f.layers r).isSome = true := by
  intro fuel
  induction fuel with
  | zero =>
    intro cursor slid pT r h
    simp [Frame.get_scroll_layer] at h
  | succ fuel ih =>
    intro cursor slid pT r h
    simp only [Frame.get_scroll_layer] at h
    cases hlu : lookupA f.layers slid with
    | none => simp [hlu] at h
    | some layer =>
      simp only [hlu] at h
      cases hfind : layer.children.findSome?
          (fun child_layer_id =>
            f.get_scroll_layer fuel cursor child_layer_id
              (pT.mul layer.local_transform)) with
      | some lid =>
        simp only [hfind] at h
        simp only [Option.some_inj] at h
        subst h
        obtain ⟨c, _, hc⟩ := List.exists_of_findSome?_eq_some hfind
        exact ih cursor c (pT.mul layer.local_transform) lid hc
      | none =>
        simp only [hfind] at h
        cases hslid : slid with
        | fixedLayer => simp [hslid] at h
        | normal n =>
          simp only [hslid] at h
          split at h
          · simp only [Option.some_inj] at h
            subst h
            rw [hslid] at hlu
            exact ⟨by simp, by simp [hlu]⟩
          · cases h

/-- C10: `get_scroll_layer` never returns the fixed layer (it answers `none`
for the fixed layer itself after searching its children) and only returns
ids present in the layer map; `scroll` therefore changes at most the
`scroll_offset` of the single hit layer — the fixed layer's entry and every
other piece of frame state (render-target tree, draw-list groups,
stacking-context info, epoch map, other layers) is untouched, and the call
is the identity when nothing is hit. -/
theorem scroll_isolation_spec :
    (∀ (f : Frame) (fuel : Nat) (cursor : Point2) (slid : ScrollLayerId)
      (pT : Matrix4) (r : ScrollLayerId),
      f.get_scroll_layer fuel cursor slid pT = some r →
      r ≠ ScrollLayerId.fixedLayer ∧ (lookupA f.layers r).isSome = true) ∧
    (∀ (f : Frame) (fuel : Nat) (delta cursor : Point2),
      (f.root_scroll_layer_id = none → f.scroll fuel delta cursor = f) ∧
      (∀ rid, f.root_scroll_layer_id = some rid →
        f.get_scroll_layer fuel cursor rid Matrix4.identity = none →
        f.scroll fuel delta cursor = f) ∧
      (∀ rid hit, f.root_scroll_layer_id = some rid →
        f.get_scroll_layer fuel cursor rid Matrix4.identity = some hit →
        (f.scroll fuel delta cursor).root = f.root ∧
        (f.scroll fuel delta cursor).draw_list_groups = f.draw_list_groups ∧
        (f.scroll fuel delta cursor).stacking_context_info =
          f.stacking_context_info ∧
        (f.scroll fuel delta cursor).pipeline_epoch_map =
          f.pipeline_epoch_map ∧
        (f.scroll fuel delta cursor).root_scroll_layer_id =
          f.root_scroll_layer_id ∧
        (∀ k, ¬ k = hit →
          lookupA (f.scroll fuel delta cursor).layers k =
            lookupA f.layers k) ∧
        lookupA (f.scroll fuel delta cursor).layers ScrollLayerId.fixedLayer =
          lookupA f.layers ScrollLayerId.fixedLayer ∧
        (∀ layer, lookupA f.layers hit = some layer →
          ∃ off, lookupA (f.scroll fuel delta cursor).layers hit =
            some { layer with scroll_offset := off }))) := by
  refine ⟨get_scroll_layer_not_fixed, ?_⟩
  intro f fuel delta cursor
  refine ⟨?_, ?_, ?_⟩
  · intro h
    simp only [Frame.scroll, h]
  · intro rid h1 h2
    simp only [Frame.scroll, h1, h2]
  · intro rid hit h1 h2
    have hnf : hit ≠ ScrollLayerId.fixedLayer :=
      (get_scroll_layer_not_fixed f fuel cursor rid Matrix4.identity hit h2).1
    simp only [Frame.scroll, h1, h2]
    cases hlay : lookupA f.layers hit with
    | none =>
      simp only [hlay]
      refine ⟨?_, ?_, ?_, ?_, ?_, ?_, ?_, ?_⟩ <;>
        first
          | trivial
          | exact h1
          | simp [hlay]
    | some layer =>
      simp only [hlay]
      refine ⟨?_, ?_, ?_, ?_, ?_, ?_, ?_, ?_⟩
      all_goals try trivial
      · intro k hk
        exact lookupA_insertA_ne f.layers hit k _ hk
      · exact lookupA_insertA_ne f.layers hit ScrollLayerId.fixedLayer _
          (fun hc => hnf hc.symm)
      · intro layer' hl
        simp only [Option.some_inj] at hl
        subst hl
        exact ⟨_, lookupA_insertA_self f.layers hit _⟩

theorem scroll_isolation_spec_witness :
    c10frame.get_scroll_layer 1 ⟨50, 50⟩ (ScrollLayerId.normal 0)
        Matrix4.identity = some (ScrollLayerId.normal 0) ∧
    (c10frame.scroll 1 ⟨-5, 0⟩ ⟨50, 50⟩).draw_list_groups =
      c10frame.draw_list_groups ∧
    lookupA (c10frame.scroll 1 ⟨-5, 0⟩ ⟨50, 50⟩).layers
        ScrollLayerId.fixedLayer =
      lookupA c10frame.layers ScrollLayerId.fixedLayer ∧
    ∃ off, lookupA (c10frame.scroll 1 ⟨-5, 0⟩ ⟨50, 50⟩).layers
        (ScrollLayerId.normal 0) =
      some { c10layer with scroll_offset := off } := by
  have hg : c10frame.get_scroll_layer 1 ⟨50, 50⟩ (ScrollLayerId.normal 0)
      Matrix4.identity = some (ScrollLayerId.normal 0) := by
    with_unfolding_all rfl
  have h := (scroll_isolation_spec.2 c10frame 1 ⟨-5, 0⟩ ⟨50, 50⟩).2.2
    (ScrollLayerId.normal 0) (ScrollLayerId.normal 0) rfl hg
  exact ⟨hg, h.2.1, h.2.2.2.2.2.2.1,
    h.2.2.2.2.2.2.2 c10layer rfl⟩

theorem f32Round_zero : f32Round 0 = 0 := by
  have h : (⌊(0 : ℚ) + 1/2⌋ : ℤ) = 0 := by
    have h1 : ((0 : ℚ) + 1/2) ∈ Set.Ico (0 : ℚ) 1 := by
      constructor <;> norm_num
    exact Int.floor_eq_zero_iff.mpr h1
  simp only [f32Round, if_pos (le_refl (0 : ℚ)), h, Int.cast_zero]

theorem f32Round_nonpos {q : ℚ} (h : q ≤ 0) : f32Round q ≤ 0 := by
  unfold f32Round
  rcases le_or_lt 0 q with hq | hq
  · have hq0 : q = 0 := le_antisymm h hq
    rw [if_pos hq]
    have h0 : (⌊(0 : ℚ) + 1/2⌋ : ℤ) = 0 := by
      have h1 : ((0 : ℚ) + 1/2) ∈ Set.Ico (0 : ℚ) 1 := by
        constructor <;> norm_num
      exact Int.floor_eq_zero_iff.mpr h1
    subst hq0
    rw [h0]; norm_num
  · rw [if_neg (not_le.mpr hq)]
    have hc : (⌈q - 1/2⌉ : ℤ) ≤ 0 := Int.ceil_le.mpr (by push_cast; linarith)
    exact_mod_cast hc

theorem f32Round_mono {a b : ℚ} (h : a ≤ b) : f32Round a ≤ f32Round b := by
  unfold f32Round
  rcases le_or_lt 0 a with ha | ha
  · rw [if_pos ha, if_pos (ha.trans h)]
    exact_mod_cast Int.floor_mono (by linarith)
  · rw [if_neg (not_le.mpr ha)]
    rcases le_or_lt 0 b with hb | hb
    · rw [if_pos hb]
      have h1 : (⌈a - 1/2⌉ : ℤ) ≤ 0 := Int.ceil_le.mpr (by push_cast; linarith)
      have h2 : (0 : ℤ) ≤ ⌊b + 1/2⌋ := Int.le_floor.mpr (by push_cast; linarith)
      exact_mod_cast h1.trans h2
    · rw [if_neg (not_le.mpr hb)]
      exact_mod_cast Int.ceil_mono (by linarith)

/-- A concrete layer whose horizontal overhang `layer_size.width -
viewport_size.width = 3/5` is fractional, so the clamp bound is not an
integer. -/
def c3layer : Layer :=
  { world_origin := ⟨0, 0⟩,
    layer_size := ⟨503/5, 100⟩,
    viewport_size := ⟨100, 100⟩,
    scroll_offset := ⟨0, 0⟩,
    local_transform := Matrix4.identity,
    world_transform := Matrix4.identity,
    children := [],
    items := [] }

/-- A concrete one-layer frame whose root scroll layer is `c3layer`. -/
def c3frame : Frame :=
  { layers := [(ScrollLayerId.normal 0, c3layer)],
    pipeline_epoch_map := [],
    stacking_context_info := [],
    next_render_target_id := 1,
    next_draw_list_group_id := 0,
    draw_list_groups := [],
    root_scroll_layer_id := some (ScrollLayerId.normal 0),
    root := none }

/-- C3 (amended): `scroll` is a no-op when no root scroll layer is set, when
the hit test misses, or when the hit layer id is absent from the map; on a
hit it adds the delta and clamps to `[-(layer_size - viewport_size), 0]` on
each axis where `layer_size > viewport_size` (other axes keep their offset),
then rounds both components.  The amended invariant: on a scrolled axis the
post-state offset lies in `[round(-(layer_size - viewport_size)), 0]` — the
rounded clamp bound, not the claimed raw bound, which rounding can
overshoot — and an axis with `layer_size ≤ viewport_size` whose offset was
`0` stays `0`. -/
theorem scroll_clamp_spec :
    (∀ (f : Frame) (fuel : Nat) (delta cursor : Point2),
      (f.root_scroll_layer_id = none → f.scroll fuel delta cursor = f) ∧
      (∀ rid, f.root_scroll_layer_id = some rid →
        f.get_scroll_layer fuel cursor rid Matrix4.identity = none →
        f.scroll fuel delta cursor = f) ∧
      (∀ rid hit, f.root_scroll_layer_id = some rid →
        f.get_scroll_layer fuel cursor rid Matrix4.identity = some hit →
        lookupA f.layers hit = none → f.scroll fuel delta cursor = f)) ∧
    (∀ (f : Frame) (fuel : Nat) (delta cursor : Point2)
      (rid hit : ScrollLayerId) (layer : Layer),
      f.root_scroll_layer_id = some rid →
      f.get_scroll_layer fuel cursor rid Matrix4.identity = some hit →
      lookupA f.layers hit = some layer →
      ∃ off, lookupA (f.scroll fuel delta cursor).layers hit =
          some { layer with scroll_offset := off } ∧
        off.x = f32Round
          (if layer.layer_size.width > layer.viewport_size.width then
            max (min (layer.scroll_offset.x + delta.x) 0)
              (-layer.layer_size.width + layer.viewport_size.width)
          else layer.scroll_offset.x) ∧
        off.y = f32Round
          (if layer.layer_size.height > layer.viewport_size.height then
            max (min (layer.scroll_offset.y + delta.y) 0)
              (-layer.layer_size.height + layer.viewport_size.height)
          else layer.scroll_offset.y) ∧
        (layer.layer_size.width > layer.viewport_size.width →
          f32Round (-layer.layer_size.width + layer.viewport_size.width) ≤
            off.x ∧ off.x ≤ 0) ∧
        (¬ layer.layer_size.width > layer.viewport_size.width →
          layer.scroll_offset.x = 0 → off.x = 0) ∧
        (layer.layer_size.height > layer.viewport_size.height →
          f32Round (-layer.layer_size.height + layer.viewport_size.height) ≤
            off.y ∧ off.y ≤ 0) ∧
        (¬ layer.layer_size.height > layer.viewport_size.height →
          layer.scroll_offset.y = 0 → off.y = 0)) := by
  constructor
  · intro f fuel delta cursor
    refine ⟨?_, ?_, ?_⟩
    · intro h
      simp only [Frame.scroll, h]
    · intro rid h1 h2
      simp only [Frame.scroll, h1, h2]
    · intro rid hit h1 h2 h3
      simp only [Frame.scroll, h1, h2, h3]
  · intro f fuel delta cursor rid hit layer h1 h2 h3
    simp only [Frame.scroll, h1, h2, h3]
    refine ⟨_, lookupA_insertA_self _ _ _, rfl, rfl, ?_, ?_, ?_, ?_⟩
    · intro hw
      dsimp only
      rw [if_pos hw]
      refine ⟨f32Round_mono (le_max_right _ _), f32Round_nonpos ?_⟩
      exact max_le (min_le_right _ _) (by linarith)
    · intro hw h0
      dsimp only
      rw [if_neg hw, h0, f32Round_zero]
    · intro hh
      dsimp only
      rw [if_pos hh]
      refine ⟨f32Round_mono (le_max_right _ _), f32Round_nonpos ?_⟩
      exact max_le (min_le_right _ _) (by linarith)
    · intro hh h0
      dsimp only
      rw [if_neg hh, h0, f32Round_zero]

/-- Counterexample to C3's claimed invariant: on `c3frame` the clamp range
is `[-3/5, 0]`, scrolling left by 5 clamps the offset to `-3/5`, and the
final round moves it to `-1`, strictly below `-(layer_size - viewport_size)`. -/
theorem scroll_round_exits_clamp_range :
    lookupA (c3frame.scroll 1 ⟨-5, 0⟩ ⟨50, 50⟩).layers (ScrollLayerId.normal 0) =
      some { c3layer with scroll_offset := ⟨-1, 0⟩ } ∧
    c3layer.layer_size.width > c3layer.viewport_size.width ∧
    (-1 : ℚ) <
      -(c3layer.layer_size.width - c3layer.viewport_size.width) := by
  refine ⟨by with_unfolding_all rfl, ?_, ?_⟩ <;> norm_num [c3layer]

theorem scroll_clamp_spec_witness :
    ∃ off, lookupA (c3frame.scroll 1 ⟨-2, 0⟩ ⟨50, 50⟩).layers
        (ScrollLayerId.normal 0) = some { c3layer with scroll_offset := off } ∧
      f32Round (-c3layer.layer_size.width + c3layer.viewport_size.width) ≤
        off.x ∧ off.x ≤ 0 := by
  obtain ⟨off, hoff, hx, hy, hbw, hew, hbh, heh⟩ :=
    scroll_clamp_spec.2 c3frame 1 ⟨-2, 0⟩ ⟨50, 50⟩ (ScrollLayerId.normal 0)
      (ScrollLayerId.normal 0) c3layer rfl (by with_unfolding_all rfl) rfl
  have hw : c3layer.layer_size.width > c3layer.viewport_size.width := by
    norm_num [c3layer]
  exact ⟨off, hoff, (hbw hw).1, (hbw hw).2⟩

/-- The right-hand side of the spec's transform-update equation:
`parent.world_transform · local_transform · T(world_origin) ·
T(scroll_offset)` (also the value `update_layer_transform` computes at a
node). -/
def wtFormula (parent_world : Matrix4) (l : Layer) : Matrix4 :=
  ((parent_world.mul l.local_transform).translate
      l.world_origin.x l.world_origin.y 0).translate
    l.scroll_offset.x l.scroll_offset.y 0

/-- A layer with its (derived) `world_transform` field normalised away, for
stating that the transform update touches no other field. -/
def stripWT (l : Layer) : Layer := { l with world_transform := Matrix4.identity }

/-- Two layer maps agree except possibly on `world_transform` fields. -/
def mapsShapeEq (M1 M2 : List (ScrollLayerId × Layer)) : Prop :=
  ∀ k, (lookupA M1 k).map stripWT = (lookupA M2 k).map stripWT

/-- Following the spec's words (transform update): walk the scroll-layer
tree from the given node; at each node the prescribed world transform is
`parent.world_transform · local_transform · T(world_origin) ·
T(scroll_offset)`; recurse to the children with that transform as the new
parent transform.  Emits each visited node with its prescribed world
transform, depth-first. -/
def specWalk (layers : List (ScrollLayerId × Layer)) (fuel : Nat)
    (id : ScrollLayerId) (parent_world : Matrix4) :
    List (ScrollLayerId × Matrix4) :=
  match fuel with
  | 0 => []
  | fuel + 1 =>
    match lookupA layers id with
    | none => []
    | some layer =>
      (id, wtFormula parent_world layer) ::
        layer.children.flatMap
          (fun c => specWalk layers fuel c (wtFormula parent_world layer))
termination_by structural fuel

theorem eq_setWT_of_stripWT_eq {l1 l2 : Layer} (h : stripWT l1 = stripWT l2) :
    l1 = { l2 with world_transform := l1.world_transform } := by
  cases l1; cases l2
  simp only [stripWT, Layer.mk.injEq, and_true, true_and] at h ⊢
  exact h

theorem wtFormula_congr {l1 l2 : Layer} (pT : Matrix4)
    (h : stripWT l1 = stripWT l2) : wtFormula pT l1 = wtFormula pT l2 := by
  cases l1; cases l2
  simp only [stripWT, Layer.mk.injEq, and_true, true_and] at h
  obtain ⟨h1, h2, h3, h4, h5, h6, h7⟩ := h
  subst h1; subst h4; subst h5
  rfl

theorem updateLayerTransform_spec :
    ∀ (fuel : Nat) (M M0 : List (ScrollLayerId × Layer)) (id : ScrollLayerId)
      (pT : Matrix4),
      mapsShapeEq M M0 →
      ((specWalk M0 fuel id pT).map Prod.fst).Nodup →
      (∀ k w, (k, w) ∈ specWalk M0 fuel id pT →
        ∃ lay0 lay', lookupA M0 k = some lay0 ∧
          lookupA (updateLayerTransform fuel M id pT) k = some lay' ∧
          stripWT lay' = stripWT lay0 ∧ lay'.world_transform = w) ∧
      (∀ k, k ∉ (specWalk M0 fuel id pT).map Prod.fst →
        lookupA (updateLayerTransform fuel M id pT) k = lookupA M k) := by
  intro fuel
  induction fuel with
  | zero =>
    intro M M0 id pT hsh hnd
    constructor
    · intro k w hmem
      simp [specWalk] at hmem
    · intro k hk
      simp [updateLayerTransform]
  | succ fuel ih =>
    intro M M0 id pT hsh hnd
    cases hMl : lookupA M id with
    | none =>
      have hM0l : lookupA M0 id = none := by
        have hs := hsh id
        rw [hMl] at hs
        cases h0 : lookupA M0 id with
        | none => rfl
        | some l =>
          rw [h0] at hs
          simp at hs
      constructor
      · intro k w hmem
        simp only [specWalk, hM0l] at hmem
        simp at hmem
      · intro k hk
        simp only [updateLayerTransform, hMl]
    | some layerM =>
      cases hM0l : lookupA M0 id with
      | none =>
        have hs := hsh id
        rw [hMl, hM0l] at hs
        simp at hs
      | some lay0 =>
        have h0 : stripWT layerM = stripWT lay0 := by
          have hs := hsh id
          rw [hMl, hM0l] at hs
          simpa using hs
        have hch : layerM.children = lay0.children := by
          have hc := congrArg Layer.children h0
          exact hc
        have hw : wtFormula pT layerM = wtFormula pT lay0 := wtFormula_congr pT h0
        have hwalk : specWalk M0 (fuel + 1) id pT =
            (id, wtFormula pT lay0) ::
              lay0.children.flatMap
                (fun c => specWalk M0 fuel c (wtFormula pT lay0)) := by
          simp only [specWalk, hM0l]
        have hupd : updateLayerTransform (fuel + 1) M id pT =
            lay0.children.foldl
              (fun ls c => updateLayerTransform fuel ls c (wtFormula pT lay0))
              (insertA M id
                { layerM with world_transform := wtFormula pT lay0 }) := by
          rw [← hch, ← hw]
          simp only [updateLayerTransform, hMl, wtFormula]
        have hshape1 : mapsShapeEq
            (insertA M id { layerM with world_transform := wtFormula pT lay0 })
            M0 := by
          intro k
          by_cases hk : k = id
          · subst hk
            rw [lookupA_insertA_self, hM0l]
            simp only [Option.map_some']
            exact congrArg some h0
          · rw [lookupA_insertA_ne M id k _ hk]
            exact hsh k
        have FOLD : ∀ (cs : List ScrollLayerId)
            (acc : List (ScrollLayerId × Layer)),
            mapsShapeEq acc M0 →
            ((cs.flatMap
              (fun c => specWalk M0 fuel c (wtFormula pT lay0))).map
                Prod.fst).Nodup →
            (∀ k w, (k, w) ∈ cs.flatMap
                (fun c => specWalk M0 fuel c (wtFormula pT lay0)) →
              ∃ lay0' lay', lookupA M0 k = some lay0' ∧
                lookupA (cs.foldl
                  (fun ls c =>
                    updateLayerTransform fuel ls c (wtFormula pT lay0)) acc) k =
                  some lay' ∧
                stripWT lay' = stripWT lay0' ∧ lay'.world_transform = w) ∧
            (∀ k, k ∉ (cs.flatMap
                (fun c => specWalk M0 fuel c (wtFormula pT lay0))).map
                  Prod.fst →
              lookupA (cs.foldl
                (fun ls c =>
                  updateLayerTransform fuel ls c (wtFormula pT lay0)) acc) k =
                lookupA acc k) := by
          intro cs
          induction cs with
          | nil =>
            intro acc hacc hnd'
            constructor
            · intro k w hmem
              simp at hmem
            · intro k hk
              simp only [List.foldl_nil]
          | cons c cs ihc =>
            intro acc hacc hnd'
            rw [List.flatMap_cons, List.map_append, List.nodup_append] at hnd'
            obtain ⟨hnd1, hnd2, hdisj⟩ := hnd'
            have hmain := ih acc M0 c (wtFormula pT lay0) hacc hnd1
            have hshape2 : mapsShapeEq
                (updateLayerTransform fuel acc c (wtFormula pT lay0)) M0 := by
              intro k
              by_cases hk : k ∈ (specWalk M0 fuel c (wtFormula pT lay0)).map
                  Prod.fst
              · obtain ⟨⟨k', w'⟩, hp, hpk⟩ := List.mem_map.mp hk
                simp only at hpk
                subst hpk
                obtain ⟨lay0', lay', hM0k, hacck, hstrip, hwt⟩ :=
                  hmain.1 k' w' hp
                rw [hacck, hM0k]
                simp only [Option.map_some']
                exact congrArg some hstrip
              · rw [hmain.2 k hk]
                exact hacc k
            have hrest := ihc (updateLayerTransform fuel acc c (wtFormula pT lay0))
              hshape2 hnd2
            constructor
            · intro k w hmem
              rw [List.flatMap_cons, List.mem_append] at hmem
              cases hmem with
              | inl hm =>
                obtain ⟨lay0', lay', hM0k, hacck, hstrip, hwt⟩ :=
                  hmain.1 k w hm
                have hkid : k ∈ (specWalk M0 fuel c (wtFormula pT lay0)).map
                    Prod.fst :=
                  List.mem_map_of_mem Prod.fst hm
                have hknot : k ∉ (cs.flatMap
                    (fun c => specWalk M0 fuel c (wtFormula pT lay0))).map
                      Prod.fst :=
                  fun hk2 => hdisj hkid hk2
                refine ⟨lay0', lay', hM0k, ?_, hstrip, hwt⟩
                rw [List.foldl_cons, hrest.2 k hknot]
                exact hacck
              | inr hm =>
                obtain ⟨lay0', lay', hM0k, hacck, hstrip, hwt⟩ :=
                  hrest.1 k w hm
                refine ⟨lay0', lay', hM0k, ?_, hstrip, hwt⟩
                rw [List.foldl_cons]
                exact hacck
            · intro k hk
              rw [List.flatMap_cons, List.map_append, List.mem_append] at hk
              push_neg at hk
              rw [List.foldl_cons, hrest.2 k hk.2]
              exact hmain.2 k hk.1
        constructor
        · intro k w hmem
          rw [hwalk] at hmem
          rw [hwalk, List.map_cons, List.nodup_cons] at hnd
          cases List.mem_cons.mp hmem with
          | inl heq =>
            have hk : k = id := congrArg Prod.fst heq
            have hww : w = wtFormula pT lay0 := congrArg Prod.snd heq
            subst hk; subst hww
            refine ⟨lay0, { layerM with world_transform := wtFormula pT lay0 },
              hM0l, ?_, ?_, rfl⟩
            · rw [hupd, (FOLD lay0.children _ hshape1 hnd.2).2 k hnd.1]
              exact lookupA_insertA_self M k _
            · exact h0
          | inr hm =>
            obtain ⟨lay0', lay', hM0k, hRk, hstrip, hwt⟩ :=
              (FOLD lay0.children _ hshape1 hnd.2).1 k w hm
            refine ⟨lay0', lay', hM0k, ?_, hstrip, hwt⟩
            rw [hupd]
            exact hRk
        · intro k hk
          rw [hwalk, List.map_cons, List.mem_cons] at hk
          rw [hwalk, List.map_cons, List.nodup_cons] at hnd
          push_neg at hk
          rw [hupd, (FOLD lay0.children _ hshape1 hnd.2).2 k hk.2]
          exact lookupA_insertA_ne M id k _ hk.1

/-- C4 (amended): after `build`, the transform-update equation
`world_transform = parent.world_transform · local_transform ·
T(world_origin) · T(scroll_offset)` holds exactly for the layers visited by
the spec's walk from the root scroll layer (whose parent transform is the
identity), provided the walk visits no layer twice; every layer of the map
the walk does not reach — e.g. the fixed layer and layers created under
fixed-policy stacking contexts — is left untouched, so the claimed equation
can fail for it. -/
theorem build_transform_spec :
    ∀ (f : Frame) (fuel : Nat) (root : ScrollLayerId),
      f.root_scroll_layer_id = some root →
      ((specWalk f.layers fuel root Matrix4.identity).map Prod.fst).Nodup →
      (∀ k w, (k, w) ∈ specWalk f.layers fuel root Matrix4.identity →
        ∃ layer, lookupA f.layers k = some layer ∧
          lookupA (f.build fuel).layers k =
            some { layer with world_transform := w }) ∧
      (∀ k, k ∉ (specWalk f.layers fuel root Matrix4.identity).map Prod.fst →
        lookupA (f.build fuel).layers k = lookupA f.layers k) := by
  intro f fuel root h1 hnd
  have hb : (f.build fuel).layers =
      updateLayerTransform fuel f.layers root Matrix4.identity := by
    simp only [Frame.build, Frame.update_layer_transforms, h1]
  have hmain := updateLayerTransform_spec fuel f.layers f.layers root
    Matrix4.identity (fun k => rfl) hnd
  constructor
  · intro k w hmem
    obtain ⟨lay0, lay', hM0k, hRk, hstrip, hwt⟩ := hmain.1 k w hmem
    refine ⟨lay0, hM0k, ?_⟩
    have heq := eq_setWT_of_stripWT_eq hstrip
    rw [hwt] at heq
    rw [hb, hRk, heq]
  · intro k hk
    rw [hb]
    exact hmain.2 k hk

theorem build_transform_spec_witness :
    ∃ layer, lookupA c10frame.layers (ScrollLayerId.normal 0) = some layer ∧
      lookupA (c10frame.build 1).layers (ScrollLayerId.normal 0) =
        some { layer with world_transform := Matrix4.identity } := by
  have hsw : specWalk c10frame.layers 1 (ScrollLayerId.normal 0)
      Matrix4.identity = [(ScrollLayerId.normal 0, Matrix4.identity)] := by
    with_unfolding_all rfl
  have hnd : ((specWalk c10frame.layers 1 (ScrollLayerId.normal 0)
      Matrix4.identity).map Prod.fst).Nodup := by
    rw [hsw]
    simp
  exact (build_transform_spec c10frame 1 (ScrollLayerId.normal 0) rfl hnd).1
    (ScrollLayerId.normal 0) Matrix4.identity (by rw [hsw]; simp)

def c4dl0 : DisplayList := ⟨[⟨.content, .stackingContext 10⟩]⟩

def c4dl1 : DisplayList := ⟨[⟨.content, .stackingContext 11⟩]⟩

def c4dl2 : DisplayList := ⟨[⟨.content, .drawList 9⟩]⟩

/-- The root stacking context of the counterexample scene: scrollable, with
scroll layer 0, one display list holding the fixed-policy child. -/
def c4root : StackingContext :=
  { bounds := ⟨⟨0, 0⟩, ⟨800, 600⟩⟩,
    overflow := ⟨⟨0, 0⟩, ⟨800, 600⟩⟩,
    transform := Matrix4.identity,
    perspective := Matrix4.identity,
    mix_blend_mode := .normal,
    filters := [],
    scroll_policy := .scrollable,
    scroll_layer_id := some (ScrollLayerId.normal 0),
    establishes_3d_context := false,
    has_stacking_contexts := true,
    z_index := 0,
    display_lists := [0] }

/-- A fixed-policy stacking context at bounds origin `(5, 3)`. -/
def c4fixed : StackingContext :=
  { c4root with
      bounds := ⟨⟨5, 3⟩, ⟨100, 100⟩⟩,
      overflow := ⟨⟨0, 0⟩, ⟨100, 100⟩⟩,
      scroll_policy := .fixedPolicy,
      scroll_layer_id := none,
      display_lists := [1] }

/-- A scrollable stacking context with scroll layer 1 nested inside the
fixed-policy context: its layer is attached to the fixed layer. -/
def c4grand : StackingContext :=
  { c4root with
      bounds := ⟨⟨0, 0⟩, ⟨50, 50⟩⟩,
      overflow := ⟨⟨0, 0⟩, ⟨50, 50⟩⟩,
      scroll_layer_id := some (ScrollLayerId.normal 1),
      display_lists := [2] }

def c4scene : Scene :=
  { root_pipeline_id := some 7,
    pipeline_map := [(7, ⟨7, 0, none, 0⟩)],
    stacking_context_map := [(0, ⟨c4root⟩), (10, ⟨c4fixed⟩), (11, ⟨c4grand⟩)],
    display_list_map := [(0, c4dl0), (1, c4dl1), (2, c4dl2)] }

def c4cache : ResourceCache := ⟨[(9, ⟨[], none⟩)]⟩

/-- The frame obtained by `create` on the counterexample scene followed by
`build`. -/
def c4F : Frame :=
  (((Frame.create Frame.new c4scene c4cache [] ⟨800, 600⟩ 9).getD
      (Frame.new, c4cache, [])).1).build 9

set_option maxRecDepth 10000 in
/-- Counterexample to C4 as claimed: on `c4scene`, `create` succeeds and
produces a layer (scroll layer 1, created under a fixed-policy stacking
context and attached as a child of the fixed layer) whose `world_transform`
after `build` is *not* `parent.world_transform · local_transform ·
T(world_origin) · T(scroll_offset)` — the transform walk starts at the root
scroll layer and never reaches the fixed layer's subtree, so the layer
keeps the identity transform although the formula demands a translation by
its world origin `(5, 3)`. -/
theorem build_skips_fixed_subtree :
    (Frame.create Frame.new c4scene c4cache [] ⟨800, 600⟩ 9).isSome = true ∧
    ∃ layer parent,
      lookupA c4F.layers (ScrollLayerId.normal 1) = some layer ∧
      lookupA c4F.layers ScrollLayerId.fixedLayer = some parent ∧
      ScrollLayerId.normal 1 ∈ parent.children ∧
      layer.world_transform ≠
        ((parent.world_transform.mul layer.local_transform).translate
            layer.world_origin.x layer.world_origin.y 0).translate
          layer.scroll_offset.x layer.scroll_offset.y 0 := by
  refine ⟨by with_unfolding_all rfl,
    (lookupA c4F.layers (ScrollLayerId.normal 1)).getD
      (Layer.new ⟨0, 0⟩ ⟨0, 0⟩ ⟨0, 0⟩ Matrix4.identity),
    (lookupA c4F.layers ScrollLayerId.fixedLayer).getD
      (Layer.new ⟨0, 0⟩ ⟨0, 0⟩ ⟨0, 0⟩ Matrix4.identity),
    by with_unfolding_all rfl, by with_unfolding_all rfl,
    by with_unfolding_all decide, by with_unfolding_all decide⟩
